import Mathlib

/-
Verification of the request dispatch subsystem of the FMP MCP server
(src/server.py): path normalization, credential resolution, the retry
executor, pagination accumulation, error classification and the fmp_call
facade.  Query parameter values are modelled by their query-string
serialization; the network, the jitter source and the JSON parser used on
exception messages are abstract oracles supplied as arguments.  Python
exceptions are modelled with Except: a function that can raise returns
Except PyErr, and a try/except block is a match on that result.
-/

namespace FMP

/-- Decoded JSON values, as returned by resp.json() in the source. -/
inductive Json where
  | null : Json
  | bool : Bool → Json
  | num : Int → Json
  | str : String → Json
  | arr : List Json → Json
  | obj : List (String × Json) → Json

/-- Python truthiness of a decoded JSON value (the source tests "if not chunk"). -/
def truthy : Json → Bool
  | .null => false
  | .bool b => b
  | .num n => n != 0
  | .str s => s != ""
  | .arr xs => !xs.isEmpty
  | .obj kvs => !kvs.isEmpty

/-- Field lookup on a JSON object (first binding wins), none on non-objects. -/
def jGet : Json → String → Option Json
  | .obj kvs, k => (kvs.find? (fun kv => kv.fst == k)).map (fun kv => kv.snd)
  | _, _ => none

/-- A query-parameter dict: association list, keys unique in practice,
first binding is the dict entry. -/
abbrev Params := List (String × String)

/-- Dict read: qp.get(k). -/
def lookupP (qp : Params) (k : String) : Option String :=
  (qp.find? (fun kv => kv.fst == k)).map (fun kv => kv.snd)

/-- Dict membership: k in qp. -/
def hasKey (qp : Params) (k : String) : Bool :=
  (qp.find? (fun kv => kv.fst == k)).isSome

/-- Dict write qp[k] = v: overwrite the binding in place, else append. -/
def setParam (qp : Params) (k v : String) : Params :=
  match qp with
  | [] => [(k, v)]
  | kv :: t => if kv.fst == k then (k, v) :: t else kv :: setParam t k v

/-- Outcome of one HTTP attempt (client.request + raise_for_status + resp.json()):
success with decoded body, success with a body json() fails on, an HTTP status
error, or a transport-level exception raised by client.request. -/
inductive AttemptOutcome where
  | ok : Json → AttemptOutcome
  | okBadJson : String → AttemptOutcome
  | httpError : Nat → String → AttemptOutcome
  | exn : String → AttemptOutcome

/-- Exceptions crossing function boundaries in the modelled code:
httpx.HTTPStatusError(status, body text) or any other Exception(message). -/
inductive PyErr where
  | httpStatusError : Nat → String → PyErr
  | otherError : String → PyErr

/-- Observable outcome of running a piece of the dispatch code: the returned
value or raised exception, the next global attempt index, the query-parameter
dicts of the HTTP attempts issued in order, the retry sleep durations in
order, and the number of executor invocations (page fetches). -/
structure RunOut where
  result : Except PyErr Json
  next : Nat
  calls : List Params
  sleeps : List ℚ
  fetches : Nat

/-- Statuses the executor treats as transient: 429, 500, 502, 503, 504. -/
def retryStatus (s : Nat) : Bool :=
  s == 429 || s == 500 || s == 502 || s == 503 || s == 504

/-- The retry loop of _request_json: net gives the outcome of each global
attempt, rand the jitter drawn before each retry.  attempt is the loop
counter of the source; tick is the global attempt index. -/
def requestAttempts (net : Nat → AttemptOutcome) (rand : Nat → ℚ) (qp : Params)
    (max_retries tick attempt : Nat) : RunOut :=
  match net tick with
  | .ok body => ⟨.ok body, tick + 1, [qp], [], 0⟩
  | .httpError s b =>
    if h : retryStatus s = true ∧ attempt < max_retries then
      let r := requestAttempts net rand qp max_retries (tick + 1) (attempt + 1)
      ⟨r.result, r.next, qp :: r.calls, ((2 : ℚ) ^ attempt + rand tick) :: r.sleeps, 0⟩
    else ⟨.error (.httpStatusError s b), tick + 1, [qp], [], 0⟩
  | .okBadJson msg =>
    if h : attempt < max_retries then
      let r := requestAttempts net rand qp max_retries (tick + 1) (attempt + 1)
      ⟨r.result, r.next, qp :: r.calls, ((2 : ℚ) ^ attempt + rand tick) :: r.sleeps, 0⟩
    else ⟨.error (.otherError msg), tick + 1, [qp], [], 0⟩
  | .exn msg =>
    if h : attempt < max_retries then
      let r := requestAttempts net rand qp max_retries (tick + 1) (attempt + 1)
      ⟨r.result, r.next, qp :: r.calls, ((2 : ℚ) ^ attempt + rand tick) :: r.sleeps, 0⟩
    else ⟨.error (.otherError msg), tick + 1, [qp], [], 0⟩
termination_by max_retries - attempt
decreasing_by all_goals omega

/-- The guard at the top of _request_json: apikey absent or falsy. -/
def apikeyMissing (qp : Params) : Bool :=
  match lookupP qp "apikey" with
  | none => true
  | some v => v == ""

/-- The RuntimeError message raised when no apikey is set. -/
def apikeyMissingMsg : String :=
  "FMP apikey is missing. Provide ?apiKey=... (saved to session) or set via set_fmp_api_key()."

/-- _request_json of the source: raise RuntimeError when no apikey is set,
else run the attempt/retry loop.  Counts as one executor invocation. -/
def request_json (net : Nat → AttemptOutcome) (rand : Nat → ℚ)
    (method url_or_path : String) (params : Params) (max_retries tick : Nat) : RunOut :=
  if apikeyMissing params then
    ⟨.error (.otherError apikeyMissingMsg), tick, [], [], 1⟩
  else
    let r := requestAttempts net rand params max_retries tick 0
    ⟨r.result, r.next, r.calls, r.sleeps, 1⟩

/-- The for-loop body of _paginate: fuel is the remaining iterations of
range(max_pages), acc is all_rows, page the current page index. -/
def paginateLoop (net : Nat → AttemptOutcome) (rand : Nat → ℚ)
    (method url_or_path : String) (params : Params) (page_param : String)
    (page : Int) (fuel : Nat) (acc : List Json) (tick : Nat) : RunOut :=
  match fuel with
  | 0 => ⟨.ok (.arr acc), tick, [], [], 0⟩
  | f + 1 =>
    let p := setParam params page_param (toString page)
    let r := request_json net rand method url_or_path p 3 tick
    match r.result with
    | .error e => ⟨.error e, r.next, r.calls, r.sleeps, r.fetches⟩
    | .ok chunk =>
      if truthy chunk = false then ⟨.ok (.arr acc), r.next, r.calls, r.sleeps, r.fetches⟩
      else
        match chunk with
        | .arr xs =>
          let r2 := paginateLoop net rand method url_or_path params page_param
            (page + 1) f (acc ++ xs) r.next
          ⟨r2.result, r2.next, r.calls ++ r2.calls, r.sleeps ++ r2.sleeps, r.fetches + r2.fetches⟩
        | c => ⟨.ok (.arr (acc ++ [c])), r.next, r.calls, r.sleeps, r.fetches⟩

/-- _paginate of the source: pass-through to _request_json when paginate is
off, else the accumulation loop starting from start_page with all_rows = []. -/
def paginate (net : Nat → AttemptOutcome) (rand : Nat → ℚ)
    (method url_or_path : String) (params : Params) (pag : Bool)
    (page_param : String) (start_page : Int) (max_pages : Nat) (tick : Nat) : RunOut :=
  if pag = false then request_json net rand method url_or_path params 3 tick
  else paginateLoop net rand method url_or_path params page_param start_page max_pages [] tick

/-- str.startswith of Python, over the character list (the builtin
String.startsWith does not reduce in the kernel). -/
def strStartsWith (s pre : String) : Bool := pre.data.isPrefixOf s.data

/-- str.lower of Python, over the character list. -/
def lowerStr (s : String) : String := ⟨s.data.map Char.toLower⟩

/-- str.strip of Python (remove whitespace at both ends), over the
character list. -/
def stripStr (s : String) : String :=
  ⟨((s.data.dropWhile Char.isWhitespace).reverse.dropWhile Char.isWhitespace).reverse⟩

/-- _norm_path of the source: absolute URLs and absolute paths pass through;
otherwise the lowercased, stripped service tag picks the namespace, with
/stable as the fallback for unrecognized tags. -/
def norm_path (service endpoint : String) : String :=
  if strStartsWith endpoint "http://" || strStartsWith endpoint "https://" then endpoint
  else if strStartsWith endpoint "/" then endpoint
  else
    let svc := stripStr (lowerStr service)
    if svc == "stable" then "/stable/" ++ endpoint
    else if svc == "v3" then "/api/v3/" ++ endpoint
    else if svc == "v4" then "/api/v4/" ++ endpoint
    else if svc == "api" || svc == "legacy" then "/api/v3/" ++ endpoint
    else if svc == "raw" then "/" ++ endpoint
    else "/stable/" ++ endpoint

/-- The session credential store SESSION_FMP_KEYS, as a map. -/
abbrev Store := String → Option String

/-- The alias keys scanned, in order, by _resolve_user_fmp_key. -/
def fmpAliasKeys : List String := ["apiKey", "apikey", "api_key"]

/-- The alias scan of _resolve_user_fmp_key: first alias bound to a truthy
value in the query parameters. -/
def firstAliasVal (qp : Params) : Option String :=
  fmpAliasKeys.findSome? (fun k =>
    match lookupP qp k with
    | some v => if v == "" then none else some v
    | none => none)

/-- Step 3 of _resolve_user_fmp_key: the process-wide DEFAULT_FMP_KEY_FROM_URL
slot, used when truthy. -/
def fallbackKey (defaultKey : Option String) : Option String :=
  match defaultKey with
  | some d => if d == "" then none else some d
  | none => none

/-- _resolve_user_fmp_key of the source: explicit parameter alias, then the
key stored for the bound session, then the process-wide default slot. -/
def resolve_user_fmp_key (qp : Params) (sid : Option String) (store : Store)
    (defaultKey : Option String) : Option String :=
  match firstAliasVal qp with
  | some v => some (stripStr v)
  | none =>
    match sid with
    | some s =>
      if s == "" then fallbackKey defaultKey
      else
        match store s with
        | some v => some v
        | none => fallbackKey defaultKey
    | none => fallbackKey defaultKey

/-- One catalog row (the fields the dispatch core reads). -/
structure CatalogItem where
  tool_name : String
  service : String
  endpoint : String
  plan_hint : String

/-- FMP_CATALOG of the source (tool name, service, endpoint, plan hint). -/
def FMP_CATALOG : List CatalogItem := [
  ⟨"fmp_search_name", "stable", "search-name", "Basic(EOD)"⟩,
  ⟨"fmp_search", "stable", "search-symbol", "Basic(EOD)"⟩,
  ⟨"fmp_available_industries", "stable", "available-industries", "Basic(EOD)"⟩,
  ⟨"fmp_quote", "stable", "quote", "Starter+"⟩,
  ⟨"fmp_quote_short", "stable", "quote-short", "Basic(EOD)"⟩,
  ⟨"fmp_historical_price_full", "stable", "historical-price-eod/full", "Basic(EOD)"⟩,
  ⟨"fmp_historical_price_eod_light", "stable", "historical-price-eod/light", "Basic(EOD)"⟩,
  ⟨"fmp_income_statement", "stable", "income-statement", "Starter+"⟩,
  ⟨"fmp_balance_sheet_statement", "stable", "balance-sheet-statement", "Starter+"⟩,
  ⟨"fmp_cash_flow_statement", "stable", "cash-flow-statement", "Starter+"⟩,
  ⟨"fmp_financial_statement_full_as_reported", "stable", "financial-statement-full-as-reported", "Starter+"⟩,
  ⟨"fmp_cash_flow_statement_as_reported", "stable", "cash-flow-statement-as-reported", "Starter+"⟩,
  ⟨"fmp_balance_sheet_statement_as_reported", "stable", "balance-sheet-statement-as-reported", "Starter+"⟩,
  ⟨"fmp_key_metrics", "stable", "key-metrics", "Starter+"⟩,
  ⟨"fmp_ratios", "stable", "ratios", "Starter+"⟩,
  ⟨"fmp_profile_symbol", "stable", "profile", "Starter+"⟩,
  ⟨"fmp_profile_bulk", "stable", "profile-bulk", "Starter+"⟩,
  ⟨"fmp_profile_cik", "stable", "profile-cik", "Starter+"⟩,
  ⟨"fmp_sec_profile", "stable", "sec-profile", "Starter+"⟩,
  ⟨"fmp_earnings_calendar", "stable", "earnings-calendar", "Starter+"⟩,
  ⟨"fmp_dividends_calendar", "stable", "dividends-calendar", "Starter+"⟩,
  ⟨"fmp_ipo_calendar", "stable", "ipo-calendar", "Starter+"⟩,
  ⟨"fmp_stock_news", "stable", "stock-news", "Starter+"⟩,
  ⟨"fmp_all_index_quotes", "stable", "all-index-quotes", "Starter+"⟩,
  ⟨"fmp_full_index_quotes", "stable", "full-index-quotes", "Starter+"⟩]

/-- _plan_hint_for of the source: plan hint of the first catalog row matching
service and endpoint. -/
def plan_hint_for (service endpoint : String) : Option String :=
  (FMP_CATALOG.find? (fun it => it.service == service && it.endpoint == endpoint)).map
    (fun it => it.plan_hint)

/-- Substring test (the "k in t" checks of the classifier). -/
def strContains (hay needle : String) : Bool :=
  hay.data.tails.any (fun t => needle.data.isPrefixOf t)

/-- The plan/permission/quota keyword list of the classifier. -/
def planKeywords : List String :=
  ["plan", "upgrade", "permission", "not allowed", "access", "payment", "quota", "rate limit"]

/-- _classify_fmp_http_error of the source. -/
def classify_fmp_http_error (service endpoint : String) (status : Nat)
    (body_text : String) : Json :=
  let t := lowerStr body_text
  let plan_like := planKeywords.any (fun k => strContains t k)
  let cns : String × Bool × List String :=
    if status == 401 then ("AUTH_INVALID", true, ["제공된 FMP API Key를 확인/갱신하세요."])
    else if status == 402 then ("PAYMENT_REQUIRED", true, ["요금제 결제/업그레이드가 필요합니다."])
    else if status == 403 then ("PLAN_OR_PERMISSION", true, ["현재 요금제로 접근 불가인 엔드포인트입니다."])
    else if status == 429 then ("RATE_LIMIT", false, ["호출 빈도를 낮추거나 요금제를 상향하세요."])
    else if status == 404 then ("NOT_FOUND", false, ["엔드포인트/심볼/파라미터를 재확인하세요."])
    else if 500 ≤ status then ("UPSTREAM_ERROR", false, ["잠시 후 재시도하세요."])
    else ("UNKNOWN", false, [])
  let plan_hint := plan_hint_for service endpoint
  let needs_confirm := if plan_like && !(status == 404) then true else cns.2.1
  let suggested :=
    match plan_hint with
    | some p => cns.2.2 ++ ["이 호출의 권장 플랜 힌트: " ++ p]
    | none => cns.2.2
  Json.obj [
    ("code", Json.str cns.1),
    ("status", Json.num (Int.ofNat status)),
    ("needs_user_confirmation", Json.bool needs_confirm),
    ("message", Json.str (body_text.take 300)),
    ("plan_hint", match plan_hint with | some p => Json.str p | none => Json.null),
    ("suggested_action",
      if suggested.isEmpty then Json.null
      else Json.str (String.intercalate " / " suggested)),
    ("endpoint", Json.str endpoint),
    ("service", Json.str service)]

/-- The CLIENT_ERROR payload built by _error_payload_from_exception. -/
def clientErrorJson (msg : String) : Json :=
  Json.obj [("code", Json.str "CLIENT_ERROR"), ("message", Json.str (msg.take 500)),
    ("needs_user_confirmation", Json.bool false)]

/-- _error_payload_from_exception of the source: messages that look like a
JSON object are parsed (loads is the abstract json.loads, none when it
raises); everything else becomes a CLIENT_ERROR payload. -/
def error_payload_from_exception (loads : String → Option Json) (msg : String) : Json :=
  if strStartsWith msg "\x7b" then
    match loads msg with
    | some j => j
    | none => clientErrorJson msg
  else clientErrorJson msg

/-- The symbol merge at the top of fmp_call: a truthy symbol argument is
copied into the query parameters when the key is absent. -/
def mergeSymbol (params : Params) (symbol : Option String) : Params :=
  match symbol with
  | some s => if s != "" && !(hasKey params "symbol") then setParam params "symbol" s else params
  | none => params

/-- The MISSING_API_KEY error value returned by fmp_call. -/
def missingApiKeyJson : Json :=
  Json.obj [("_error", Json.obj [
    ("code", Json.str "MISSING_API_KEY"),
    ("needs_user_confirmation", Json.bool false),
    ("suggest_web_search", Json.bool true),
    ("message", Json.str "MCP URL에 ?apiKey=... 로 FMP 키를 전달해야 합니다. 현재 키가 없어 API로는 답변을 제공할 수 없으며, 공개 웹 검색으로 참고 값을 제시할 수 있습니다."),
    ("explain_to_user", Json.str "MCP 서버 등록 시 URL 끝에 ?apiKey=<YOUR_FMP_KEY>를 포함해 주세요.")])]

/-- fmp_call of the source: normalize the path, merge the symbol shortcut,
resolve the user key (returning the MISSING_API_KEY value when none), force
the resolved key into the apikey slot, and dispatch through _paginate,
converting either exception class into a structured error value. -/
def fmp_call (net : Nat → AttemptOutcome) (rand : Nat → ℚ)
    (loads : String → Option Json) (sid : Option String) (store : Store)
    (defaultKey : Option String) (endpoint service : String) (params : Params)
    (symbol : Option String) (pag : Bool) (page_param : String) (start_page : Int)
    (max_pages : Nat) (method : String) (tick : Nat) : RunOut :=
  let url_or_path := norm_path service endpoint
  let qp := mergeSymbol params symbol
  match resolve_user_fmp_key qp sid store defaultKey with
  | none => ⟨.ok missingApiKeyJson, tick, [], [], 0⟩
  | some user_key =>
    if user_key == "" then ⟨.ok missingApiKeyJson, tick, [], [], 0⟩
    else
      let qp1 := setParam qp "apikey" user_key
      let r := paginate net rand method url_or_path qp1 pag page_param start_page max_pages tick
      match r.result with
      | .ok _ => r
      | .error (.httpStatusError st body) =>
        ⟨.ok (Json.obj [("_error", classify_fmp_http_error service endpoint st body)]),
          r.next, r.calls, r.sleeps, r.fetches⟩
      | .error (.otherError msg) =>
        ⟨.ok (Json.obj [("_error", error_payload_from_exception loads msg)]),
          r.next, r.calls, r.sleeps, r.fetches⟩

/-- The ok value returned by the key management tools. -/
def okJson : Json := Json.obj [("ok", Json.bool true)]

/-- The NO_SESSION error value of the key management tools. -/
def noSessionJson : Json :=
  Json.obj [("ok", Json.bool false), ("_error", Json.obj [
    ("code", Json.str "NO_SESSION"),
    ("message", Json.str "세션 ID를 찾을 수 없습니다.")])]

/-- dict.pop(s, None) on the session store. -/
def popKey (store : Store) (s : String) : Store :=
  fun k => if k == s then none else store k

/-- clear_fmp_api_key of the source: NO_SESSION when no truthy session id is
bound, else drop the binding (if any) and report ok. -/
def clear_fmp_api_key (sid : Option String) (store : Store) : Json × Store :=
  match sid with
  | none => (noSessionJson, store)
  | some s =>
    if s == "" then (noSessionJson, store)
    else (okJson, popKey store s)

/-! ### Helper lemmas about the parameter dict -/

theorem lookupP_nil (k : String) : lookupP [] k = none := rfl

theorem lookupP_cons (a : String × String) (t : Params) (k : String) :
    lookupP (a :: t) k = if a.fst == k then some a.snd else lookupP t k := by
  by_cases h : a.fst == k <;> simp [lookupP, List.find?, h]

theorem hasKey_cons (a : String × String) (t : Params) (k : String) :
    hasKey (a :: t) k = (a.fst == k || hasKey t k) := by
  by_cases h : a.fst == k <;> simp [hasKey, List.find?, h]

theorem setParam_cons (a : String × String) (t : Params) (k v : String) :
    setParam (a :: t) k v =
      if a.fst == k then (k, v) :: t else a :: setParam t k v := rfl

theorem lookupP_setParam_self (qp : Params) (k v : String) :
    lookupP (setParam qp k v) k = some v := by
  induction qp with
  | nil => simp [setParam, lookupP_cons]
  | cons a t ih =>
    rw [setParam_cons]
    by_cases h : (a.fst == k) = true
    · rw [if_pos h, lookupP_cons]
      simp
    · rw [if_neg h, lookupP_cons]
      simp only [h, if_false, Bool.false_eq_true]
      simpa [h] using ih

theorem lookupP_setParam_ne (qp : Params) (k v k2 : String) (h : k2 ≠ k) :
    lookupP (setParam qp k v) k2 = lookupP qp k2 := by
  have hkk : (k == k2) = false := by simp; exact fun hh => h hh.symm
  induction qp with
  | nil => simp [setParam, lookupP_cons, lookupP_nil, hkk]
  | cons a t ih =>
    rw [setParam_cons]
    by_cases ha : (a.fst == k) = true
    · have haeq : a.fst = k := by simpa using ha
      rw [if_pos ha, lookupP_cons, lookupP_cons]
      rw [haeq, hkk]
      simp
    · rw [if_neg ha, lookupP_cons, lookupP_cons, ih]

theorem apikeyMissing_setParam_ne (qp : Params) (k v : String) (h : k ≠ "apikey") :
    apikeyMissing (setParam qp k v) = apikeyMissing qp := by
  unfold apikeyMissing
  rw [lookupP_setParam_ne qp k v "apikey" (fun hh => h hh.symm)]

theorem apikeyMissing_eq_false (qp : Params) (h : apikeyMissing qp = false) :
    ∃ k, lookupP qp "apikey" = some k ∧ k ≠ "" := by
  unfold apikeyMissing at h
  cases hl : lookupP qp "apikey" with
  | none => rw [hl] at h; simp at h
  | some v =>
    rw [hl] at h
    exact ⟨v, rfl, by simpa using h⟩

/-! ### Helper lemmas about the retry loop -/

/-- The failure an attempt outcome raises, if any. -/
def errOfOutcome : AttemptOutcome → Option PyErr
  | .ok _ => none
  | .okBadJson msg => some (.otherError msg)
  | .httpError s b => some (.httpStatusError s b)
  | .exn msg => some (.otherError msg)

/-- Outcomes the executor loop is willing to retry. -/
def transientOutcome : AttemptOutcome → Bool
  | .ok _ => false
  | .okBadJson _ => true
  | .httpError s _ => retryStatus s
  | .exn _ => true

theorem requestAttempts_ok (net : Nat → AttemptOutcome) (rand : Nat → ℚ) (qp : Params)
    (m tick a : Nat) (b : Json) (h : net tick = .ok b) :
    requestAttempts net rand qp m tick a = ⟨.ok b, tick + 1, [qp], [], 0⟩ := by
  rw [requestAttempts, h]

theorem requestAttempts_stop (net : Nat → AttemptOutcome) (rand : Nat → ℚ) (qp : Params)
    (m tick a : Nat) (e : PyErr) (he : errOfOutcome (net tick) = some e)
    (hc : transientOutcome (net tick) = false ∨ ¬ a < m) :
    requestAttempts net rand qp m tick a = ⟨.error e, tick + 1, [qp], [], 0⟩ := by
  cases ho : net tick with
  | ok b => rw [ho] at he; simp [errOfOutcome] at he
  | okBadJson msg =>
    rw [ho] at he hc
    simp only [errOfOutcome, Option.some.injEq] at he
    simp only [transientOutcome] at hc
    have ha : ¬ a < m := by
      rcases hc with hc | hc
      · exact absurd hc (by simp)
      · exact hc
    rw [requestAttempts, ho]
    simp [ha, ← he]
  | httpError s b =>
    rw [ho] at he hc
    simp only [errOfOutcome, Option.some.injEq] at he
    simp only [transientOutcome] at hc
    rw [requestAttempts, ho]
    have : ¬ (retryStatus s = true ∧ a < m) := by
      rcases hc with hc | hc
      · intro hh; rw [hc] at hh; exact Bool.false_ne_true hh.1
      · intro hh; exact hc hh.2
    simp [this, ← he]
  | exn msg =>
    rw [ho] at he hc
    simp only [errOfOutcome, Option.some.injEq] at he
    simp only [transientOutcome] at hc
    have ha : ¬ a < m := by
      rcases hc with hc | hc
      · exact absurd hc (by simp)
      · exact hc
    rw [requestAttempts, ho]
    simp [ha, ← he]

theorem requestAttempts_retry (net : Nat → AttemptOutcome) (rand : Nat → ℚ) (qp : Params)
    (m tick a : Nat) (ht : transientOutcome (net tick) = true) (ha : a < m) :
    requestAttempts net rand qp m tick a =
      ⟨(requestAttempts net rand qp m (tick + 1) (a + 1)).result,
       (requestAttempts net rand qp m (tick + 1) (a + 1)).next,
       qp :: (requestAttempts net rand qp m (tick + 1) (a + 1)).calls,
       ((2 : ℚ) ^ a + rand tick) :: (requestAttempts net rand qp m (tick + 1) (a + 1)).sleeps,
       0⟩ := by
  cases ho : net tick with
  | ok b => rw [ho] at ht; simp [transientOutcome] at ht
  | okBadJson msg => rw [requestAttempts, ho]; simp [ha]
  | httpError s b =>
    rw [ho] at ht
    simp only [transientOutcome] at ht
    rw [requestAttempts, ho]
    simp [ht, ha]
  | exn msg => rw [requestAttempts, ho]; simp [ha]

/-- Full characterization of one executor run: some positive number n of
attempts bounded by max_retries + 1, all with the same parameters, global
attempt index advanced by n, one backoff sleep per retry with base 2 to the
attempt counter, zero on the fetch counter, and on failure the propagated
exception is the one of the last attempt. -/
theorem requestAttempts_spec (net : Nat → AttemptOutcome) (rand : Nat → ℚ) (qp : Params)
    (m tick a : Nat) :
    ∃ n, 1 ≤ n ∧ n ≤ (m - a) + 1 ∧
      (requestAttempts net rand qp m tick a).calls = List.replicate n qp ∧
      (requestAttempts net rand qp m tick a).next = tick + n ∧
      (requestAttempts net rand qp m tick a).sleeps.length = n - 1 ∧
      (∀ k, k < n - 1 →
        (requestAttempts net rand qp m tick a).sleeps[k]? =
          some ((2 : ℚ) ^ (a + k) + rand (tick + k))) ∧
      (∀ e, (requestAttempts net rand qp m tick a).result = Except.error e →
        errOfOutcome (net (tick + n - 1)) = some e) ∧
      (requestAttempts net rand qp m tick a).fetches = 0 := by
  suffices H : ∀ fuel tick a, m - a ≤ fuel → ∃ n, 1 ≤ n ∧ n ≤ (m - a) + 1 ∧
      (requestAttempts net rand qp m tick a).calls = List.replicate n qp ∧
      (requestAttempts net rand qp m tick a).next = tick + n ∧
      (requestAttempts net rand qp m tick a).sleeps.length = n - 1 ∧
      (∀ k, k < n - 1 →
        (requestAttempts net rand qp m tick a).sleeps[k]? =
          some ((2 : ℚ) ^ (a + k) + rand (tick + k))) ∧
      (∀ e, (requestAttempts net rand qp m tick a).result = Except.error e →
        errOfOutcome (net (tick + n - 1)) = some e) ∧
      (requestAttempts net rand qp m tick a).fetches = 0 by
    exact H (m - a) tick a le_rfl
  intro fuel
  induction fuel with
  | zero =>
    intro tick a hle
    have ham : ¬ a < m := by omega
    refine ⟨1, le_rfl, by omega, ?_⟩
    cases ho : net tick with
    | ok b =>
      rw [requestAttempts_ok net rand qp m tick a b ho]
      refine ⟨rfl, rfl, rfl, fun k hk => absurd hk (by omega), ?_, rfl⟩
      intro e he; exact absurd he (by simp)
    | okBadJson msg =>
      rw [requestAttempts_stop net rand qp m tick a (.otherError msg)
        (by rw [ho]; rfl) (Or.inr ham)]
      refine ⟨rfl, rfl, rfl, fun k hk => absurd hk (by omega), ?_, rfl⟩
      intro e he
      simp only [Except.error.injEq] at he
      rw [show tick + 1 - 1 = tick by omega, ho, ← he]; rfl
    | httpError s b =>
      rw [requestAttempts_stop net rand qp m tick a (.httpStatusError s b)
        (by rw [ho]; rfl) (Or.inr ham)]
      refine ⟨rfl, rfl, rfl, fun k hk => absurd hk (by omega), ?_, rfl⟩
      intro e he
      simp only [Except.error.injEq] at he
      rw [show tick + 1 - 1 = tick by omega, ho, ← he]; rfl
    | exn msg =>
      rw [requestAttempts_stop net rand qp m tick a (.otherError msg)
        (by rw [ho]; rfl) (Or.inr ham)]
      refine ⟨rfl, rfl, rfl, fun k hk => absurd hk (by omega), ?_, rfl⟩
      intro e he
      simp only [Except.error.injEq] at he
      rw [show tick + 1 - 1 = tick by omega, ho, ← he]; rfl
  | succ f ih =>
    intro tick a hle
    by_cases htr : transientOutcome (net tick) = true
    · by_cases ham : a < m
      · obtain ⟨n, h1, h2, hcalls, hnext, hslen, hsleep, herr, hfet⟩ :=
          ih (tick + 1) (a + 1) (by omega)
        rw [requestAttempts_retry net rand qp m tick a htr ham]
        refine ⟨n + 1, by omega, by omega, ?_, ?_, ?_, ?_, ?_, rfl⟩
        · simp [hcalls, List.replicate_succ]
        · simp only [hnext]; omega
        · simp only [List.length_cons, hslen]; omega
        · intro k hk
          cases k with
          | zero => simp
          | succ k2 =>
            simp only [List.getElem?_cons_succ]
            rw [hsleep k2 (by omega)]
            have e1 : a + 1 + k2 = a + (k2 + 1) := by omega
            have e2 : tick + 1 + k2 = tick + (k2 + 1) := by omega
            rw [e1, e2]
        · intro e he
          have := herr e he
          rw [show tick + (n + 1) - 1 = tick + 1 + n - 1 by omega]
          exact this
      · cases ho : net tick with
        | ok b => rw [ho] at htr; simp [transientOutcome] at htr
        | okBadJson msg =>
          rw [requestAttempts_stop net rand qp m tick a (.otherError msg)
            (by rw [ho]; rfl) (Or.inr ham)]
          refine ⟨1, le_rfl, by omega, rfl, rfl, rfl, fun k hk => absurd hk (by omega), ?_, rfl⟩
          intro e he
          simp only [Except.error.injEq] at he
          rw [show tick + 1 - 1 = tick by omega, ho, ← he]; rfl
        | httpError s b =>
          rw [requestAttempts_stop net rand qp m tick a (.httpStatusError s b)
            (by rw [ho]; rfl) (Or.inr ham)]
          refine ⟨1, le_rfl, by omega, rfl, rfl, rfl, fun k hk => absurd hk (by omega), ?_, rfl⟩
          intro e he
          simp only [Except.error.injEq] at he
          rw [show tick + 1 - 1 = tick by omega, ho, ← he]; rfl
        | exn msg =>
          rw [requestAttempts_stop net rand qp m tick a (.otherError msg)
            (by rw [ho]; rfl) (Or.inr ham)]
          refine ⟨1, le_rfl, by omega, rfl, rfl, rfl, fun k hk => absurd hk (by omega), ?_, rfl⟩
          intro e he
          simp only [Except.error.injEq] at he
          rw [show tick + 1 - 1 = tick by omega, ho, ← he]; rfl
    · have htr2 : transientOutcome (net tick) = false := by
        cases h2 : transientOutcome (net tick)
        · rfl
        · exact absurd h2 htr
      cases ho : net tick with
      | ok b =>
        rw [requestAttempts_ok net rand qp m tick a b ho]
        refine ⟨1, le_rfl, by omega, rfl, rfl, rfl, fun k hk => absurd hk (by omega), ?_, rfl⟩
        intro e he; exact absurd he (by simp)
      | okBadJson msg => rw [ho] at htr2; simp [transientOutcome] at htr2
      | httpError s b =>
        rw [requestAttempts_stop net rand qp m tick a (.httpStatusError s b)
          (by rw [ho]; rfl) (Or.inl htr2)]
        refine ⟨1, le_rfl, by omega, rfl, rfl, rfl, fun k hk => absurd hk (by omega), ?_, rfl⟩
        intro e he
        simp only [Except.error.injEq] at he
        rw [show tick + 1 - 1 = tick by omega, ho, ← he]; rfl
      | exn msg => rw [ho] at htr2; simp [transientOutcome] at htr2

/-! ### Helper lemmas about the executor wrapper and the pagination loop -/

theorem request_json_missing (net : Nat → AttemptOutcome) (rand : Nat → ℚ)
    (meth url : String) (params : Params) (m tick : Nat)
    (h : apikeyMissing params = true) :
    request_json net rand meth url params m tick =
      ⟨.error (.otherError apikeyMissingMsg), tick, [], [], 1⟩ := by
  simp [request_json, h]

theorem request_json_run (net : Nat → AttemptOutcome) (rand : Nat → ℚ)
    (meth url : String) (params : Params) (m tick : Nat)
    (h : apikeyMissing params = false) :
    request_json net rand meth url params m tick =
      ⟨(requestAttempts net rand params m tick 0).result,
       (requestAttempts net rand params m tick 0).next,
       (requestAttempts net rand params m tick 0).calls,
       (requestAttempts net rand params m tick 0).sleeps, 1⟩ := by
  simp [request_json, h]

theorem request_json_ok (net : Nat → AttemptOutcome) (rand : Nat → ℚ)
    (meth url : String) (params : Params) (m tick : Nat) (b : Json)
    (h : apikeyMissing params = false) (hnet : net tick = .ok b) :
    request_json net rand meth url params m tick = ⟨.ok b, tick + 1, [params], [], 1⟩ := by
  rw [request_json_run net rand meth url params m tick h,
    requestAttempts_ok net rand params m tick 0 b hnet]

theorem request_json_fetches (net : Nat → AttemptOutcome) (rand : Nat → ℚ)
    (meth url : String) (params : Params) (m tick : Nat) :
    (request_json net rand meth url params m tick).fetches = 1 := by
  by_cases h : apikeyMissing params = true
  · rw [request_json_missing net rand meth url params m tick h]
  · rw [request_json_run net rand meth url params m tick (by simpa using h)]

theorem request_json_calls_apikey (net : Nat → AttemptOutcome) (rand : Nat → ℚ)
    (meth url : String) (params : Params) (m tick : Nat) :
    ∀ p ∈ (request_json net rand meth url params m tick).calls,
      ∃ k, lookupP p "apikey" = some k ∧ k ≠ "" := by
  by_cases h : apikeyMissing params = true
  · rw [request_json_missing net rand meth url params m tick h]
    intro p hp
    exact absurd hp (by simp)
  · have hb : apikeyMissing params = false := by simpa using h
    obtain ⟨kk, hk1, hk2⟩ := apikeyMissing_eq_false params hb
    rw [request_json_run net rand meth url params m tick hb]
    obtain ⟨n, _, _, hcalls, _⟩ := requestAttempts_spec net rand params m tick 0
    intro p hp
    simp only at hp
    rw [hcalls] at hp
    have hpq : p = params := List.eq_of_mem_replicate hp
    subst hpq
    exact ⟨kk, hk1, hk2⟩

theorem paginateLoop_succ_error (net : Nat → AttemptOutcome) (rand : Nat → ℚ)
    (meth url : String) (params : Params) (pp : String) (page : Int) (f : Nat)
    (acc : List Json) (tick : Nat) (e : PyErr)
    (h : (request_json net rand meth url (setParam params pp (toString page)) 3 tick).result =
      Except.error e) :
    paginateLoop net rand meth url params pp page (f + 1) acc tick =
      ⟨Except.error e,
       (request_json net rand meth url (setParam params pp (toString page)) 3 tick).next,
       (request_json net rand meth url (setParam params pp (toString page)) 3 tick).calls,
       (request_json net rand meth url (setParam params pp (toString page)) 3 tick).sleeps,
       (request_json net rand meth url (setParam params pp (toString page)) 3 tick).fetches⟩ := by
  simp only [paginateLoop, h]

theorem paginateLoop_succ_empty (net : Nat → AttemptOutcome) (rand : Nat → ℚ)
    (meth url : String) (params : Params) (pp : String) (page : Int) (f : Nat)
    (acc : List Json) (tick : Nat) (chunk : Json)
    (h : (request_json net rand meth url (setParam params pp (toString page)) 3 tick).result =
      Except.ok chunk) (ht : truthy chunk = false) :
    paginateLoop net rand meth url params pp page (f + 1) acc tick =
      ⟨Except.ok (Json.arr acc),
       (request_json net rand meth url (setParam params pp (toString page)) 3 tick).next,
       (request_json net rand meth url (setParam params pp (toString page)) 3 tick).calls,
       (request_json net rand meth url (setParam params pp (toString page)) 3 tick).sleeps,
       (request_json net rand meth url (setParam params pp (toString page)) 3 tick).fetches⟩ := by
  simp only [paginateLoop, h, ht, if_pos]

theorem paginateLoop_succ_list (net : Nat → AttemptOutcome) (rand : Nat → ℚ)
    (meth url : String) (params : Params) (pp : String) (page : Int) (f : Nat)
    (acc : List Json) (tick : Nat) (xs : List Json)
    (h : (request_json net rand meth url (setParam params pp (toString page)) 3 tick).result =
      Except.ok (Json.arr xs)) (ht : xs ≠ []) :
    paginateLoop net rand meth url params pp page (f + 1) acc tick =
      ⟨(paginateLoop net rand meth url params pp (page + 1) f (acc ++ xs)
          (request_json net rand meth url (setParam params pp (toString page)) 3 tick).next).result,
       (paginateLoop net rand meth url params pp (page + 1) f (acc ++ xs)
          (request_json net rand meth url (setParam params pp (toString page)) 3 tick).next).next,
       (request_json net rand meth url (setParam params pp (toString page)) 3 tick).calls ++
         (paginateLoop net rand meth url params pp (page + 1) f (acc ++ xs)
            (request_json net rand meth url (setParam params pp (toString page)) 3 tick).next).calls,
       (request_json net rand meth url (setParam params pp (toString page)) 3 tick).sleeps ++
         (paginateLoop net rand meth url params pp (page + 1) f (acc ++ xs)
            (request_json net rand meth url (setParam params pp (toString page)) 3 tick).next).sleeps,
       (request_json net rand meth url (setParam params pp (toString page)) 3 tick).fetches +
         (paginateLoop net rand meth url params pp (page + 1) f (acc ++ xs)
            (request_json net rand meth url (setParam params pp (toString page)) 3 tick).next).fetches⟩ := by
  have htr : truthy (Json.arr xs) = true := by simp [truthy, ht]
  simp only [paginateLoop, h, htr]
  simp

theorem paginateLoop_succ_scalar (net : Nat → AttemptOutcome) (rand : Nat → ℚ)
    (meth url : String) (params : Params) (pp : String) (page : Int) (f : Nat)
    (acc : List Json) (tick : Nat) (c : Json)
    (h : (request_json net rand meth url (setParam params pp (toString page)) 3 tick).result =
      Except.ok c) (ht : truthy c = true) (hc : ∀ xs, c ≠ Json.arr xs) :
    paginateLoop net rand meth url params pp page (f + 1) acc tick =
      ⟨Except.ok (Json.arr (acc ++ [c])),
       (request_json net rand meth url (setParam params pp (toString page)) 3 tick).next,
       (request_json net rand meth url (setParam params pp (toString page)) 3 tick).calls,
       (request_json net rand meth url (setParam params pp (toString page)) 3 tick).sleeps,
       (request_json net rand meth url (setParam params pp (toString page)) 3 tick).fetches⟩ := by
  simp only [paginateLoop, h, ht]
  cases c with
  | arr xs => exact absurd rfl (hc xs)
  | null => simp [truthy] at ht
  | bool b => simp
  | num n => simp
  | str s => simp
  | obj kvs => simp

theorem paginateLoop_fetches_le (net : Nat → AttemptOutcome) (rand : Nat → ℚ)
    (meth url : String) (params : Params) (pp : String) :
    ∀ (fuel : Nat) (page : Int) (acc : List Json) (tick : Nat),
      (paginateLoop net rand meth url params pp page fuel acc tick).fetches ≤ fuel := by
  intro fuel
  induction fuel with
  | zero => intro page acc tick; simp [paginateLoop]
  | succ f ih =>
    intro page acc tick
    cases hr : (request_json net rand meth url (setParam params pp (toString page)) 3 tick).result with
    | error e =>
      rw [paginateLoop_succ_error net rand meth url params pp page f acc tick e hr]
      simp [request_json_fetches]
    | ok chunk =>
      by_cases htr : truthy chunk = false
      · rw [paginateLoop_succ_empty net rand meth url params pp page f acc tick chunk hr htr]
        simp [request_json_fetches]
      · have htt : truthy chunk = true := by
          cases hq : truthy chunk
          · exact absurd hq htr
          · rfl
        cases chunk with
        | arr xs =>
          have hxs : xs ≠ [] := by
            intro hx; rw [hx] at htt; simp [truthy] at htt
          rw [paginateLoop_succ_list net rand meth url params pp page f acc tick xs hr hxs]
          have hih := ih (page + 1) (acc ++ xs)
            ((request_json net rand meth url (setParam params pp (toString page)) 3 tick).next)
          simp only [request_json_fetches]
          omega
        | null => simp [truthy] at htt
        | bool b =>
          rw [paginateLoop_succ_scalar net rand meth url params pp page f acc tick _ hr htt
            (fun xs hx => Json.noConfusion hx)]
          simp [request_json_fetches]
        | num n =>
          rw [paginateLoop_succ_scalar net rand meth url params pp page f acc tick _ hr htt
            (fun xs hx => Json.noConfusion hx)]
          simp [request_json_fetches]
        | str s =>
          rw [paginateLoop_succ_scalar net rand meth url params pp page f acc tick _ hr htt
            (fun xs hx => Json.noConfusion hx)]
          simp [request_json_fetches]
        | obj kvs =>
          rw [paginateLoop_succ_scalar net rand meth url params pp page f acc tick _ hr htt
            (fun xs hx => Json.noConfusion hx)]
          simp [request_json_fetches]

theorem paginateLoop_calls_apikey (net : Nat → AttemptOutcome) (rand : Nat → ℚ)
    (meth url : String) (params : Params) (pp : String) :
    ∀ (fuel : Nat) (page : Int) (acc : List Json) (tick : Nat),
      ∀ p ∈ (paginateLoop net rand meth url params pp page fuel acc tick).calls,
        ∃ k, lookupP p "apikey" = some k ∧ k ≠ "" := by
  intro fuel
  induction fuel with
  | zero => intro page acc tick p hp; exact absurd hp (by simp [paginateLoop])
  | succ f ih =>
    intro page acc tick
    cases hr : (request_json net rand meth url (setParam params pp (toString page)) 3 tick).result with
    | error e =>
      rw [paginateLoop_succ_error net rand meth url params pp page f acc tick e hr]
      intro p hp
      exact request_json_calls_apikey net rand meth url _ 3 tick p hp
    | ok chunk =>
      by_cases htr : truthy chunk = false
      · rw [paginateLoop_succ_empty net rand meth url params pp page f acc tick chunk hr htr]
        intro p hp
        exact request_json_calls_apikey net rand meth url _ 3 tick p hp
      · have htt : truthy chunk = true := by
          cases hq : truthy chunk
          · exact absurd hq htr
          · rfl
        cases chunk with
        | arr xs =>
          have hxs : xs ≠ [] := by
            intro hx; rw [hx] at htt; simp [truthy] at htt
          rw [paginateLoop_succ_list net rand meth url params pp page f acc tick xs hr hxs]
          intro p hp
          simp only [List.mem_append] at hp
          rcases hp with hp | hp
          · exact request_json_calls_apikey net rand meth url _ 3 tick p hp
          · exact ih (page + 1) (acc ++ xs) _ p hp
        | null => simp [truthy] at htt
        | bool b =>
          rw [paginateLoop_succ_scalar net rand meth url params pp page f acc tick _ hr htt
            (fun xs hx => Json.noConfusion hx)]
          intro p hp
          exact request_json_calls_apikey net rand meth url _ 3 tick p hp
        | num n =>
          rw [paginateLoop_succ_scalar net rand meth url params pp page f acc tick _ hr htt
            (fun xs hx => Json.noConfusion hx)]
          intro p hp
          exact request_json_calls_apikey net rand meth url _ 3 tick p hp
        | str s =>
          rw [paginateLoop_succ_scalar net rand meth url params pp page f acc tick _ hr htt
            (fun xs hx => Json.noConfusion hx)]
          intro p hp
          exact request_json_calls_apikey net rand meth url _ 3 tick p hp
        | obj kvs =>
          rw [paginateLoop_succ_scalar net rand meth url params pp page f acc tick _ hr htt
            (fun xs hx => Json.noConfusion hx)]
          intro p hp
          exact request_json_calls_apikey net rand meth url _ 3 tick p hp

/-- Consuming a block of non-empty list pages: when the oracle serves, from
attempt index tick on, the pages of ps as non-empty lists (one attempt per
fetch), the loop appends their concatenation to the accumulator and proceeds
with correspondingly advanced page index, fuel and attempt index. -/
theorem paginateLoop_advance (net : Nat → AttemptOutcome) (rand : Nat → ℚ)
    (meth url : String) (params : Params) (pp : String)
    (hak : apikeyMissing params = false) (hpp : pp ≠ "apikey") :
    ∀ (ps : List (List Json)) (page : Int) (fuel : Nat) (acc : List Json) (tick : Nat),
      ps.length ≤ fuel →
      (∀ i, (h : i < ps.length) →
        net (tick + i) = AttemptOutcome.ok (Json.arr (ps.get ⟨i, h⟩)) ∧ ps.get ⟨i, h⟩ ≠ []) →
      (paginateLoop net rand meth url params pp page fuel acc tick).result =
        (paginateLoop net rand meth url params pp (page + ps.length) (fuel - ps.length)
          (acc ++ ps.join) (tick + ps.length)).result ∧
      (paginateLoop net rand meth url params pp page fuel acc tick).fetches =
        ps.length + (paginateLoop net rand meth url params pp (page + ps.length)
          (fuel - ps.length) (acc ++ ps.join) (tick + ps.length)).fetches := by
  intro ps
  induction ps with
  | nil =>
    intro page fuel acc tick hlen hpages
    simp
  | cons p ps ih =>
    intro page fuel acc tick hlen hpages
    simp only [List.length_cons] at hlen
    cases fuel with
    | zero => omega
    | succ f =>
      obtain ⟨hnet0, hne0⟩ := hpages 0 (by simp)
      simp only [List.get] at hnet0 hne0
      rw [Nat.add_zero] at hnet0
      have hak2 : apikeyMissing (setParam params pp (toString page)) = false := by
        rw [apikeyMissing_setParam_ne params pp _ hpp]; exact hak
      have hreq := request_json_ok net rand meth url (setParam params pp (toString page))
        3 tick (Json.arr p) hak2 hnet0
      have hres : (request_json net rand meth url (setParam params pp (toString page))
          3 tick).result = Except.ok (Json.arr p) := by rw [hreq]
      have hnext : (request_json net rand meth url (setParam params pp (toString page))
          3 tick).next = tick + 1 := by rw [hreq]
      have hfet : (request_json net rand meth url (setParam params pp (toString page))
          3 tick).fetches = 1 := by rw [hreq]
      rw [paginateLoop_succ_list net rand meth url params pp page f acc tick p hres hne0]
      have hpages2 : ∀ i, (h : i < ps.length) →
          net (tick + 1 + i) = AttemptOutcome.ok (Json.arr (ps.get ⟨i, h⟩)) ∧
            ps.get ⟨i, h⟩ ≠ [] := by
        intro i h
        have := hpages (i + 1) (by simpa using Nat.succ_lt_succ h)
        simp only [List.get] at this
        have harith : tick + (i + 1) = tick + 1 + i := by omega
        rw [harith] at this
        exact this
      obtain ⟨ihres, ihfet⟩ := ih (page + 1) f (acc ++ p) (tick + 1) (by omega) hpages2
      have hlen2 : (p :: ps).length = ps.length + 1 := rfl
      have epage : page + (((p :: ps).length : Nat) : Int) = page + 1 + (ps.length : Int) := by
        rw [hlen2]; push_cast; ring
      have efuel : f + 1 - (p :: ps).length = f - ps.length := by rw [hlen2]; omega
      have etick : tick + (p :: ps).length = tick + 1 + ps.length := by rw [hlen2]; omega
      have eacc : acc ++ (p :: ps).join = acc ++ p ++ ps.join := by
        simp [List.join]
      constructor
      · simp only [hnext]
        rw [ihres, epage, efuel, etick, eacc]
      · simp only [hnext, hfet]
        rw [ihfet, epage, efuel, etick, eacc, hlen2]
        omega

/-! ### Claim C9: the path resolver -/

/-- C9: the path resolver is total and pure: absolute URLs and absolute paths
pass through unchanged for every version tag; each recognized tag (after
lowercasing and stripping) maps to its fixed prefix; every unrecognized tag
falls back to the stable prefix. -/
theorem c9_norm_path_table :
    (∀ service endpoint : String,
      (strStartsWith endpoint "http://" = true ∨ strStartsWith endpoint "https://" = true ∨
        strStartsWith endpoint "/" = true) →
      norm_path service endpoint = endpoint) ∧
    (∀ service endpoint : String,
      strStartsWith endpoint "http://" = false → strStartsWith endpoint "https://" = false →
      strStartsWith endpoint "/" = false →
      (stripStr (lowerStr service) = "stable" →
        norm_path service endpoint = "/stable/" ++ endpoint) ∧
      (stripStr (lowerStr service) = "v3" →
        norm_path service endpoint = "/api/v3/" ++ endpoint) ∧
      (stripStr (lowerStr service) = "v4" →
        norm_path service endpoint = "/api/v4/" ++ endpoint) ∧
      (stripStr (lowerStr service) = "api" →
        norm_path service endpoint = "/api/v3/" ++ endpoint) ∧
      (stripStr (lowerStr service) = "legacy" →
        norm_path service endpoint = "/api/v3/" ++ endpoint) ∧
      (stripStr (lowerStr service) = "raw" →
        norm_path service endpoint = "/" ++ endpoint) ∧
      (stripStr (lowerStr service) ∉ (["stable", "v3", "v4", "api", "legacy", "raw"] : List String) →
        norm_path service endpoint = "/stable/" ++ endpoint)) := by
  constructor
  · intro service endpoint h
    unfold norm_path
    rcases h with h | h | h
    · simp [h]
    · simp [h]
    · by_cases h1 : (strStartsWith endpoint "http://" || strStartsWith endpoint "https://") = true
      · simp [h1]
      · simp only [Bool.or_eq_true] at h1
        push_neg at h1
        simp [h1.1, h1.2, h]
  · intro service endpoint h1 h2 h3
    unfold norm_path
    simp only [h1, h2, h3, Bool.or_self, Bool.false_eq_true, if_false]
    refine ⟨?_, ?_, ?_, ?_, ?_, ?_, ?_⟩
    · intro hv; simp [hv]
    · intro hv; simp [hv]
    · intro hv; simp [hv]
    · intro hv; simp [hv]
    · intro hv; simp [hv]
    · intro hv; simp [hv]
    · intro hv
      have n1 : ¬ (stripStr (lowerStr service) = "stable") := fun hh => hv (by rw [hh]; simp)
      have n2 : ¬ (stripStr (lowerStr service) = "v3") := fun hh => hv (by rw [hh]; simp)
      have n3 : ¬ (stripStr (lowerStr service) = "v4") := fun hh => hv (by rw [hh]; simp)
      have n4 : ¬ (stripStr (lowerStr service) = "api") := fun hh => hv (by rw [hh]; simp)
      have n5 : ¬ (stripStr (lowerStr service) = "legacy") := fun hh => hv (by rw [hh]; simp)
      have n6 : ¬ (stripStr (lowerStr service) = "raw") := fun hh => hv (by rw [hh]; simp)
      simp [beq_iff_eq, n1, n2, n3, n4, n5, n6]

/-- Witness for C9 at concrete inputs: a passthrough path, the v4 tag with
surrounding whitespace and mixed case, and an unrecognized tag. -/
theorem c9_norm_path_table_witness :
    norm_path "v3" "/api/v4/quote" = "/api/v4/quote" ∧
    norm_path " V4 " "quote" = "/api/v4/quote" ∧
    norm_path "weird" "quote" = "/stable/quote" := by
  refine ⟨?_, ?_, ?_⟩
  · exact c9_norm_path_table.1 "v3" "/api/v4/quote" (Or.inr (Or.inr (by decide)))
  · exact (c9_norm_path_table.2 " V4 " "quote" (by decide) (by decide) (by decide)).2.2.1 (by decide)
  · exact (c9_norm_path_table.2 "weird" "quote" (by decide) (by decide)
      (by decide)).2.2.2.2.2.2 (by decide)

/-! ### Claim C10: clearing a session credential -/

theorem okJson_ne_noSessionJson : okJson ≠ noSessionJson := by
  simp [okJson, noSessionJson]

/-- C10: with a truthy bound session identity, clear_fmp_api_key reports ok
even when no credential is stored, clearing is idempotent on the store, and
the NO_SESSION error arises exactly when the bound identity is absent or
falsy. -/
theorem c10_clear_key_idempotent :
    (∀ (s : String) (store : Store), s ≠ "" →
      (clear_fmp_api_key (some s) store).1 = okJson ∧
      (clear_fmp_api_key (some s)
        ((clear_fmp_api_key (some s) store).2)).2 = (clear_fmp_api_key (some s) store).2) ∧
    (∀ (s : String) (store : Store), s ≠ "" → store s = none →
      (clear_fmp_api_key (some s) store).1 = okJson) ∧
    (∀ (sid : Option String) (store : Store),
      (clear_fmp_api_key sid store).1 = noSessionJson ↔ (sid = none ∨ sid = some "")) := by
  have hbeq : ∀ s : String, s ≠ "" → (s == "") = false := by
    intro s h
    simp [h]
  refine ⟨?_, ?_, ?_⟩
  · intro s store h
    have hclear : ∀ st : Store, clear_fmp_api_key (some s) st = (okJson, popKey st s) := by
      intro st
      simp [clear_fmp_api_key, hbeq s h]
    refine ⟨by rw [hclear], ?_⟩
    rw [hclear, hclear]
    show popKey (popKey store s) s = popKey store s
    funext k
    by_cases hk : (k == s) = true
    · simp [popKey, hk]
    · simp only [Bool.not_eq_true] at hk
      simp [popKey, hk]
  · intro s store h _
    simp [clear_fmp_api_key, hbeq s h]
  · intro sid store
    cases sid with
    | none => simp [clear_fmp_api_key]
    | some s =>
      by_cases h : s = ""
      · subst h
        simp [clear_fmp_api_key]
      · simp only [clear_fmp_api_key, hbeq s h, Bool.false_eq_true, if_false]
        constructor
        · intro hh; exact absurd hh okJson_ne_noSessionJson
        · intro hh
          rcases hh with hh | hh
          · exact Option.noConfusion hh
          · exact absurd (Option.some.inj hh) h

/-- Witness for C10: clearing an absent key from a bound session reports ok,
twice-clearing equals once-clearing, and a missing session id is the only
NO_SESSION path. -/
theorem c10_clear_key_idempotent_witness :
    (clear_fmp_api_key (some "sess") (fun _ => none)).1 = okJson ∧
    (clear_fmp_api_key (some "sess")
      ((clear_fmp_api_key (some "sess") (fun _ => none)).2)).2 =
      (clear_fmp_api_key (some "sess") (fun _ => none)).2 ∧
    ((clear_fmp_api_key none (fun _ => none)).1 = noSessionJson ↔
      ((none : Option String) = none ∨ (none : Option String) = some "")) := by
  refine ⟨?_, ?_, ?_⟩
  · exact (c10_clear_key_idempotent.2.1 "sess" (fun _ => none) (by decide) rfl)
  · exact (c10_clear_key_idempotent.1 "sess" (fun _ => none) (by decide)).2
  · exact c10_clear_key_idempotent.2.2 none (fun _ => none)

/-! ### Claim C2: credential resolution priority -/

/-- C2: a truthy explicit parameter credential under a recognized alias
always wins (the result does not depend on the session store or the
fallback); with no such parameter, a key stored for the truthy bound session
identity wins over the fallback (the result does not depend on the
fallback). -/
theorem c2_credential_priority :
    (∀ (qp : Params) (sid : Option String) (store : Store) (defaultKey : Option String)
      (v : String), firstAliasVal qp = some v →
      resolve_user_fmp_key qp sid store defaultKey = some (stripStr v)) ∧
    (∀ (qp : Params) (s : String) (store : Store) (defaultKey : Option String) (v : String),
      firstAliasVal qp = none → s ≠ "" → store s = some v →
      resolve_user_fmp_key qp (some s) store defaultKey = some v) := by
  constructor
  · intro qp sid store defaultKey v h
    unfold resolve_user_fmp_key
    rw [h]
  · intro qp s store defaultKey v h hs hv
    unfold resolve_user_fmp_key
    rw [h]
    have : (s == "") = false := by simp [hs]
    simp [this, hv]

/-- Witness for C2: a parameter alias beats both a stored session key and the
fallback; a stored session key beats the fallback. -/
theorem c2_credential_priority_witness :
    resolve_user_fmp_key [("apikey", "PK")] (some "sess") (fun _ => some "SK")
      (some "DK") = some (stripStr "PK") ∧
    resolve_user_fmp_key [] (some "sess") (fun _ => some "SK") (some "DK") = some "SK" := by
  constructor
  · exact c2_credential_priority.1 [("apikey", "PK")] (some "sess")
      (fun _ => some "SK") (some "DK") "PK" rfl
  · exact c2_credential_priority.2 [] "sess" (fun _ => some "SK") (some "DK") "SK"
      rfl (by decide) rfl

/-! ### Claim C8: the error classifier table -/

/-- The status-to-kind table exactly as the specification states it. -/
def specStatusCode (status : Nat) : String :=
  if status = 401 then "AUTH_INVALID"
  else if status = 402 then "PAYMENT_REQUIRED"
  else if status = 403 then "PLAN_OR_PERMISSION"
  else if status = 429 then "RATE_LIMIT"
  else if status = 404 then "NOT_FOUND"
  else if 500 ≤ status then "UPSTREAM_ERROR"
  else "UNKNOWN"

/-- Counterexample to C8 as stated: the classifier output carries no
retryable field at all, so in particular its retryable field is not true for
the 429 kind. -/
theorem c8_counterexample :
    ¬ (jGet (classify_fmp_http_error "stable" "quote" 429 "") "retryable" =
      some (Json.bool true)) := by
  intro h
  rw [show jGet (classify_fmp_http_error "stable" "quote" 429 "") "retryable" = none
    from rfl] at h
  exact Option.noConfusion h

/-- C8 (amended): the classifier maps the HTTP status to the error kind by
the fixed table of the specification, and its output carries no retryable
field (retryability is mirrored only by the executor retry set). -/
theorem c8_classifier_table (service endpoint : String) (status : Nat) (body : String) :
    jGet (classify_fmp_http_error service endpoint status body) "code" =
      some (Json.str (specStatusCode status)) ∧
    jGet (classify_fmp_http_error service endpoint status body) "retryable" = none := by
  constructor
  · unfold classify_fmp_http_error specStatusCode
    by_cases h1 : status = 401
    · simp [h1, jGet, List.find?]
    · by_cases h2 : status = 402
      · simp [h1, h2, jGet, List.find?]
      · by_cases h3 : status = 403
        · simp [h1, h2, h3, jGet, List.find?]
        · by_cases h4 : status = 429
          · simp [h1, h2, h3, h4, jGet, List.find?]
          · by_cases h5 : status = 404
            · simp [h1, h2, h3, h4, h5, jGet, List.find?]
            · by_cases h6 : 500 ≤ status
              · simp [h1, h2, h3, h4, h5, h6, jGet, List.find?]
              · simp [h1, h2, h3, h4, h5, h6, jGet, List.find?]
  · rfl

/-! ### Unfold lemmas for the facade -/

theorem fmp_call_missing_none (net : Nat → AttemptOutcome) (rand : Nat → ℚ)
    (loads : String → Option Json) (sid : Option String) (store : Store)
    (defaultKey : Option String) (endpoint service : String) (params : Params)
    (symbol : Option String) (pag : Bool) (page_param : String) (start_page : Int)
    (max_pages : Nat) (method : String) (tick : Nat)
    (hres : resolve_user_fmp_key (mergeSymbol params symbol) sid store defaultKey = none) :
    fmp_call net rand loads sid store defaultKey endpoint service params symbol pag
      page_param start_page max_pages method tick =
      ⟨.ok missingApiKeyJson, tick, [], [], 0⟩ := by
  simp only [fmp_call]
  rw [hres]

theorem fmp_call_missing_empty (net : Nat → AttemptOutcome) (rand : Nat → ℚ)
    (loads : String → Option Json) (sid : Option String) (store : Store)
    (defaultKey : Option String) (endpoint service : String) (params : Params)
    (symbol : Option String) (pag : Bool) (page_param : String) (start_page : Int)
    (max_pages : Nat) (method : String) (tick : Nat) (key : String)
    (hres : resolve_user_fmp_key (mergeSymbol params symbol) sid store defaultKey = some key)
    (hk : (key == "") = true) :
    fmp_call net rand loads sid store defaultKey endpoint service params symbol pag
      page_param start_page max_pages method tick =
      ⟨.ok missingApiKeyJson, tick, [], [], 0⟩ := by
  simp only [fmp_call]
  rw [hres]
  simp [hk]

theorem fmp_call_run_ok (net : Nat → AttemptOutcome) (rand : Nat → ℚ)
    (loads : String → Option Json) (sid : Option String) (store : Store)
    (defaultKey : Option String) (endpoint service : String) (params : Params)
    (symbol : Option String) (pag : Bool) (page_param : String) (start_page : Int)
    (max_pages : Nat) (method : String) (tick : Nat) (key : String) (v : Json)
    (hres : resolve_user_fmp_key (mergeSymbol params symbol) sid store defaultKey = some key)
    (hk : (key == "") = false)
    (hr : (paginate net rand method (norm_path service endpoint)
      (setParam (mergeSymbol params symbol) "apikey" key) pag page_param start_page
      max_pages tick).result = Except.ok v) :
    fmp_call net rand loads sid store defaultKey endpoint service params symbol pag
      page_param start_page max_pages method tick =
      paginate net rand method (norm_path service endpoint)
        (setParam (mergeSymbol params symbol) "apikey" key) pag page_param start_page
        max_pages tick := by
  simp only [fmp_call]
  rw [hres]
  simp only [hk, Bool.false_eq_true, if_false, hr]

theorem fmp_call_run_httpError (net : Nat → AttemptOutcome) (rand : Nat → ℚ)
    (loads : String → Option Json) (sid : Option String) (store : Store)
    (defaultKey : Option String) (endpoint service : String) (params : Params)
    (symbol : Option String) (pag : Bool) (page_param : String) (start_page : Int)
    (max_pages : Nat) (method : String) (tick : Nat) (key : String) (st : Nat) (body : String)
    (hres : resolve_user_fmp_key (mergeSymbol params symbol) sid store defaultKey = some key)
    (hk : (key == "") = false)
    (hr : (paginate net rand method (norm_path service endpoint)
      (setParam (mergeSymbol params symbol) "apikey" key) pag page_param start_page
      max_pages tick).result = Except.error (PyErr.httpStatusError st body)) :
    fmp_call net rand loads sid store defaultKey endpoint service params symbol pag
      page_param start_page max_pages method tick =
      ⟨.ok (Json.obj [("_error", classify_fmp_http_error service endpoint st body)]),
       (paginate net rand method (norm_path service endpoint)
         (setParam (mergeSymbol params symbol) "apikey" key) pag page_param start_page
         max_pages tick).next,
       (paginate net rand method (norm_path service endpoint)
         (setParam (mergeSymbol params symbol) "apikey" key) pag page_param start_page
         max_pages tick).calls,
       (paginate net rand method (norm_path service endpoint)
         (setParam (mergeSymbol params symbol) "apikey" key) pag page_param start_page
         max_pages tick).sleeps,
       (paginate net rand method (norm_path service endpoint)
         (setParam (mergeSymbol params symbol) "apikey" key) pag page_param start_page
         max_pages tick).fetches⟩ := by
  simp only [fmp_call]
  rw [hres]
  simp only [hk, Bool.false_eq_true, if_false, hr]

theorem fmp_call_run_otherError (net : Nat → AttemptOutcome) (rand : Nat → ℚ)
    (loads : String → Option Json) (sid : Option String) (store : Store)
    (defaultKey : Option String) (endpoint service : String) (params : Params)
    (symbol : Option String) (pag : Bool) (page_param : String) (start_page : Int)
    (max_pages : Nat) (method : String) (tick : Nat) (key : String) (msg : String)
    (hres : resolve_user_fmp_key (mergeSymbol params symbol) sid store defaultKey = some key)
    (hk : (key == "") = false)
    (hr : (paginate net rand method (norm_path service endpoint)
      (setParam (mergeSymbol params symbol) "apikey" key) pag page_param start_page
      max_pages tick).result = Except.error (PyErr.otherError msg)) :
    fmp_call net rand loads sid store defaultKey endpoint service params symbol pag
      page_param start_page max_pages method tick =
      ⟨.ok (Json.obj [("_error", error_payload_from_exception loads msg)]),
       (paginate net rand method (norm_path service endpoint)
         (setParam (mergeSymbol params symbol) "apikey" key) pag page_param start_page
         max_pages tick).next,
       (paginate net rand method (norm_path service endpoint)
         (setParam (mergeSymbol params symbol) "apikey" key) pag page_param start_page
         max_pages tick).calls,
       (paginate net rand method (norm_path service endpoint)
         (setParam (mergeSymbol params symbol) "apikey" key) pag page_param start_page
         max_pages tick).sleeps,
       (paginate net rand method (norm_path service endpoint)
         (setParam (mergeSymbol params symbol) "apikey" key) pag page_param start_page
         max_pages tick).fetches⟩ := by
  simp only [fmp_call]
  rw [hres]
  simp only [hk, Bool.false_eq_true, if_false, hr]

/-! ### Resolver helper lemmas -/

theorem resolve_none_of (qp : Params) (sid : Option String) (store : Store)
    (defaultKey : Option String) (h1 : firstAliasVal qp = none)
    (h2 : ∀ s, sid = some s → s ≠ "" → store s = none)
    (h3 : defaultKey = none ∨ defaultKey = some "") :
    resolve_user_fmp_key qp sid store defaultKey = none := by
  unfold resolve_user_fmp_key
  rw [h1]
  have hfb : fallbackKey defaultKey = none := by
    rcases h3 with h3 | h3 <;> simp [fallbackKey, h3]
  cases sid with
  | none => exact hfb
  | some s =>
    by_cases hs : (s == "") = true
    · simp [hs, hfb]
    · have hsne : s ≠ "" := by simpa using hs
      show (if (s == "") = true then fallbackKey defaultKey
        else match store s with
          | some v => some v
          | none => fallbackKey defaultKey) = none
      rw [if_neg hs, h2 s rfl hsne]
      exact hfb

theorem resolve_fallback_of (qp : Params) (sid : Option String) (store : Store)
    (d : String) (h1 : firstAliasVal qp = none)
    (h2 : ∀ s, sid = some s → s ≠ "" → store s = none) (hd : d ≠ "") :
    resolve_user_fmp_key qp sid store (some d) = some d := by
  unfold resolve_user_fmp_key
  rw [h1]
  have hfb : fallbackKey (some d) = some d := by simp [fallbackKey, hd]
  cases sid with
  | none => exact hfb
  | some s =>
    by_cases hs : (s == "") = true
    · simp [hs, hfb]
    · have hsne : s ≠ "" := by simpa using hs
      show (if (s == "") = true then fallbackKey (some d)
        else match store s with
          | some v => some v
          | none => fallbackKey (some d)) = some d
      rw [if_neg hs, h2 s rfl hsne]
      exact hfb

theorem paginate_calls_apikey (net : Nat → AttemptOutcome) (rand : Nat → ℚ)
    (meth url : String) (P : Params) (pag : Bool) (pp : String) (sp : Int)
    (mp tick : Nat) :
    ∀ p ∈ (paginate net rand meth url P pag pp sp mp tick).calls,
      ∃ k, lookupP p "apikey" = some k ∧ k ≠ "" := by
  unfold paginate
  by_cases hpag : pag = false
  · rw [if_pos hpag]
    exact request_json_calls_apikey net rand meth url P 3 tick
  · rw [if_neg hpag]
    exact paginateLoop_calls_apikey net rand meth url P pp mp sp [] tick

theorem request_json_calls_eq (net : Nat → AttemptOutcome) (rand : Nat → ℚ)
    (meth url : String) (P : Params) (m tick : Nat) :
    ∀ p ∈ (request_json net rand meth url P m tick).calls, p = P := by
  by_cases h : apikeyMissing P = true
  · rw [request_json_missing net rand meth url P m tick h]
    intro p hp
    exact absurd hp (by simp)
  · rw [request_json_run net rand meth url P m tick (by simpa using h)]
    obtain ⟨n, _, _, hcalls, _⟩ := requestAttempts_spec net rand P m tick 0
    intro p hp
    simp only at hp
    rw [hcalls] at hp
    exact List.eq_of_mem_replicate hp

theorem paginateLoop_calls_shape (net : Nat → AttemptOutcome) (rand : Nat → ℚ)
    (meth url : String) (params : Params) (pp : String) :
    ∀ (fuel : Nat) (page : Int) (acc : List Json) (tick : Nat),
      ∀ p ∈ (paginateLoop net rand meth url params pp page fuel acc tick).calls,
        ∃ q : Int, p = setParam params pp (toString q) := by
  intro fuel
  induction fuel with
  | zero => intro page acc tick p hp; exact absurd hp (by simp [paginateLoop])
  | succ f ih =>
    intro page acc tick
    cases hr : (request_json net rand meth url (setParam params pp (toString page)) 3 tick).result with
    | error e =>
      rw [paginateLoop_succ_error net rand meth url params pp page f acc tick e hr]
      intro p hp
      exact ⟨page, request_json_calls_eq net rand meth url _ 3 tick p hp⟩
    | ok chunk =>
      by_cases htr : truthy chunk = false
      · rw [paginateLoop_succ_empty net rand meth url params pp page f acc tick chunk hr htr]
        intro p hp
        exact ⟨page, request_json_calls_eq net rand meth url _ 3 tick p hp⟩
      · have htt : truthy chunk = true := by
          cases hq : truthy chunk
          · exact absurd hq htr
          · rfl
        cases chunk with
        | arr xs =>
          have hxs : xs ≠ [] := by
            intro hx; rw [hx] at htt; simp [truthy] at htt
          rw [paginateLoop_succ_list net rand meth url params pp page f acc tick xs hr hxs]
          intro p hp
          simp only [List.mem_append] at hp
          rcases hp with hp | hp
          · exact ⟨page, request_json_calls_eq net rand meth url _ 3 tick p hp⟩
          · exact ih (page + 1) (acc ++ xs) _ p hp
        | null => simp [truthy] at htt
        | bool b =>
          rw [paginateLoop_succ_scalar net rand meth url params pp page f acc tick _ hr htt
            (fun xs hx => Json.noConfusion hx)]
          intro p hp
          exact ⟨page, request_json_calls_eq net rand meth url _ 3 tick p hp⟩
        | num n =>
          rw [paginateLoop_succ_scalar net rand meth url params pp page f acc tick _ hr htt
            (fun xs hx => Json.noConfusion hx)]
          intro p hp
          exact ⟨page, request_json_calls_eq net rand meth url _ 3 tick p hp⟩
        | str s2 =>
          rw [paginateLoop_succ_scalar net rand meth url params pp page f acc tick _ hr htt
            (fun xs hx => Json.noConfusion hx)]
          intro p hp
          exact ⟨page, request_json_calls_eq net rand meth url _ 3 tick p hp⟩
        | obj kvs =>
          rw [paginateLoop_succ_scalar net rand meth url params pp page f acc tick _ hr htt
            (fun xs hx => Json.noConfusion hx)]
          intro p hp
          exact ⟨page, request_json_calls_eq net rand meth url _ 3 tick p hp⟩

theorem paginate_calls_lookup (net : Nat → AttemptOutcome) (rand : Nat → ℚ)
    (meth url : String) (P : Params) (pag : Bool) (pp : String) (sp : Int)
    (mp tick : Nat) (hpp : pp ≠ "apikey") :
    ∀ p ∈ (paginate net rand meth url P pag pp sp mp tick).calls,
      lookupP p "apikey" = lookupP P "apikey" := by
  unfold paginate
  by_cases hpag : pag = false
  · rw [if_pos hpag]
    intro p hp
    rw [request_json_calls_eq net rand meth url P 3 tick p hp]
  · rw [if_neg hpag]
    intro p hp
    obtain ⟨q, hq⟩ := paginateLoop_calls_shape net rand meth url P pp mp sp [] tick p hp
    rw [hq, lookupP_setParam_ne P pp (toString q) "apikey" (fun hh => hpp hh.symm)]

/-! ### Claim C1: the facade never raises -/

/-- C1: every fmp_call run returns a value, never a raised exception; the
value is the MISSING_API_KEY object, an object wrapping an _error payload,
or the successful dispatch payload itself. -/
theorem c1_fmp_call_never_raises (net : Nat → AttemptOutcome) (rand : Nat → ℚ)
    (loads : String → Option Json) (sid : Option String) (store : Store)
    (defaultKey : Option String) (endpoint service : String) (params : Params)
    (symbol : Option String) (pag : Bool) (page_param : String) (start_page : Int)
    (max_pages : Nat) (method : String) (tick : Nat) :
    ∃ v, (fmp_call net rand loads sid store defaultKey endpoint service params symbol pag
        page_param start_page max_pages method tick).result = Except.ok v ∧
      (v = missingApiKeyJson ∨
        (∃ err, v = Json.obj [("_error", err)]) ∨
        (∃ key, resolve_user_fmp_key (mergeSymbol params symbol) sid store defaultKey =
            some key ∧
          (paginate net rand method (norm_path service endpoint)
            (setParam (mergeSymbol params symbol) "apikey" key) pag page_param start_page
            max_pages tick).result = Except.ok v)) := by
  cases hres : resolve_user_fmp_key (mergeSymbol params symbol) sid store defaultKey with
  | none =>
    rw [fmp_call_missing_none net rand loads sid store defaultKey endpoint service params
      symbol pag page_param start_page max_pages method tick hres]
    exact ⟨missingApiKeyJson, rfl, Or.inl rfl⟩
  | some key =>
    cases hk : (key == "") with
    | true =>
      rw [fmp_call_missing_empty net rand loads sid store defaultKey endpoint service params
        symbol pag page_param start_page max_pages method tick key hres hk]
      exact ⟨missingApiKeyJson, rfl, Or.inl rfl⟩
    | false =>
      cases hr : (paginate net rand method (norm_path service endpoint)
          (setParam (mergeSymbol params symbol) "apikey" key) pag page_param start_page
          max_pages tick).result with
      | ok v =>
        rw [fmp_call_run_ok net rand loads sid store defaultKey endpoint service params
          symbol pag page_param start_page max_pages method tick key v hres hk hr]
        exact ⟨v, hr, Or.inr (Or.inr ⟨key, rfl, hr⟩)⟩
      | error e =>
        cases e with
        | httpStatusError st body =>
          rw [fmp_call_run_httpError net rand loads sid store defaultKey endpoint service
            params symbol pag page_param start_page max_pages method tick key st body
            hres hk hr]
          exact ⟨Json.obj [("_error", classify_fmp_http_error service endpoint st body)],
            rfl, Or.inr (Or.inl ⟨classify_fmp_http_error service endpoint st body, rfl⟩)⟩
        | otherError msg =>
          rw [fmp_call_run_otherError net rand loads sid store defaultKey endpoint service
            params symbol pag page_param start_page max_pages method tick key msg
            hres hk hr]
          exact ⟨Json.obj [("_error", error_payload_from_exception loads msg)],
            rfl, Or.inr (Or.inl ⟨error_payload_from_exception loads msg, rfl⟩)⟩

/-! ### Claim C5: missing credential short-circuit -/

/-- C5: when nothing resolves a credential, fmp_call returns the structured
MISSING_API_KEY error with no attempt issued; and in every run, each issued
HTTP attempt carries a truthy apikey query parameter. -/
theorem c5_missing_credential_no_call :
    (∀ (net : Nat → AttemptOutcome) (rand : Nat → ℚ) (loads : String → Option Json)
      (sid : Option String) (store : Store) (defaultKey : Option String)
      (endpoint service : String) (params : Params) (symbol : Option String) (pag : Bool)
      (page_param : String) (start_page : Int) (max_pages : Nat) (method : String)
      (tick : Nat),
      firstAliasVal (mergeSymbol params symbol) = none →
      (∀ s, sid = some s → s ≠ "" → store s = none) →
      (defaultKey = none ∨ defaultKey = some "") →
      fmp_call net rand loads sid store defaultKey endpoint service params symbol pag
        page_param start_page max_pages method tick =
        ⟨.ok missingApiKeyJson, tick, [], [], 0⟩) ∧
    (∀ (net : Nat → AttemptOutcome) (rand : Nat → ℚ) (loads : String → Option Json)
      (sid : Option String) (store : Store) (defaultKey : Option String)
      (endpoint service : String) (params : Params) (symbol : Option String) (pag : Bool)
      (page_param : String) (start_page : Int) (max_pages : Nat) (method : String)
      (tick : Nat),
      ∀ p ∈ (fmp_call net rand loads sid store defaultKey endpoint service params symbol
        pag page_param start_page max_pages method tick).calls,
        ∃ k, lookupP p "apikey" = some k ∧ k ≠ "") := by
  constructor
  · intro net rand loads sid store defaultKey endpoint service params symbol pag
      page_param start_page max_pages method tick h1 h2 h3
    exact fmp_call_missing_none net rand loads sid store defaultKey endpoint service params
      symbol pag page_param start_page max_pages method tick
      (resolve_none_of (mergeSymbol params symbol) sid store defaultKey h1 h2 h3)
  · intro net rand loads sid store defaultKey endpoint service params symbol pag
      page_param start_page max_pages method tick
    cases hres : resolve_user_fmp_key (mergeSymbol params symbol) sid store defaultKey with
    | none =>
      rw [fmp_call_missing_none net rand loads sid store defaultKey endpoint service params
        symbol pag page_param start_page max_pages method tick hres]
      intro p hp
      exact absurd hp (by simp)
    | some key =>
      cases hk : (key == "") with
      | true =>
        rw [fmp_call_missing_empty net rand loads sid store defaultKey endpoint service
          params symbol pag page_param start_page max_pages method tick key hres hk]
        intro p hp
        exact absurd hp (by simp)
      | false =>
        cases hr : (paginate net rand method (norm_path service endpoint)
            (setParam (mergeSymbol params symbol) "apikey" key) pag page_param start_page
            max_pages tick).result with
        | ok v =>
          rw [fmp_call_run_ok net rand loads sid store defaultKey endpoint service params
            symbol pag page_param start_page max_pages method tick key v hres hk hr]
          exact paginate_calls_apikey net rand method (norm_path service endpoint) _ pag
            page_param start_page max_pages tick
        | error e =>
          cases e with
          | httpStatusError st body =>
            rw [fmp_call_run_httpError net rand loads sid store defaultKey endpoint service
              params symbol pag page_param start_page max_pages method tick key st body
              hres hk hr]
            exact paginate_calls_apikey net rand method (norm_path service endpoint) _ pag
              page_param start_page max_pages tick
          | otherError msg =>
            rw [fmp_call_run_otherError net rand loads sid store defaultKey endpoint service
              params symbol pag page_param start_page max_pages method tick key msg
              hres hk hr]
            exact paginate_calls_apikey net rand method (norm_path service endpoint) _ pag
              page_param start_page max_pages tick

/-- Witness for C5: with empty parameters, no session, no fallback, the call
returns the MISSING_API_KEY value and issues no attempt. -/
theorem c5_missing_credential_no_call_witness :
    fmp_call (fun _ => AttemptOutcome.ok Json.null) (fun _ => 0) (fun _ => none) none
      (fun _ => none) none "quote" "stable" [] none false "page" 0 1 "GET" 0 =
      ⟨.ok missingApiKeyJson, 0, [], [], 0⟩ :=
  c5_missing_credential_no_call.1 (fun _ => AttemptOutcome.ok Json.null) (fun _ => 0)
    (fun _ => none) none (fun _ => none) none "quote" "stable" [] none false "page" 0 1
    "GET" 0 rfl (fun s hs _ => Option.noConfusion hs) (Or.inl rfl)

/-! ### Claim C3: the process-wide fallback in caller dispatch -/

/-- Counterexample to C3 as stated: with no parameter credential and no
session credential but a process-wide default key present, a caller
dispatch resolves to the default key and sends it as the apikey of the
outgoing request. -/
theorem c3_counterexample :
    resolve_user_fmp_key [] none (fun _ => none) (some "GLOBALKEY") = some "GLOBALKEY" ∧
    (fmp_call (fun _ => AttemptOutcome.ok (Json.arr [Json.str "row"])) (fun _ => 0)
      (fun _ => none) none (fun _ => none) (some "GLOBALKEY") "quote" "stable" [] none
      false "page" 0 1 "GET" 0).calls = [[("apikey", "GLOBALKEY")]] := by
  constructor
  · rfl
  · have hres : resolve_user_fmp_key (mergeSymbol [] none) none (fun _ => none)
        (some "GLOBALKEY") = some "GLOBALKEY" := rfl
    have hk : (("GLOBALKEY" : String) == "") = false := rfl
    have hreq : request_json (fun _ => AttemptOutcome.ok (Json.arr [Json.str "row"]))
        (fun _ => 0) "GET" (norm_path "stable" "quote")
        (setParam (mergeSymbol [] none) "apikey" "GLOBALKEY") 3 0 =
        ⟨Except.ok (Json.arr [Json.str "row"]), 1,
          [setParam (mergeSymbol [] none) "apikey" "GLOBALKEY"], [], 1⟩ :=
      request_json_ok (fun _ => AttemptOutcome.ok (Json.arr [Json.str "row"])) (fun _ => 0)
        "GET" (norm_path "stable" "quote")
        (setParam (mergeSymbol [] none) "apikey" "GLOBALKEY") 3 0
        (Json.arr [Json.str "row"]) rfl rfl
    have hpag : paginate (fun _ => AttemptOutcome.ok (Json.arr [Json.str "row"]))
        (fun _ => 0) "GET" (norm_path "stable" "quote")
        (setParam (mergeSymbol [] none) "apikey" "GLOBALKEY") false "page" 0 1 0 =
        ⟨Except.ok (Json.arr [Json.str "row"]), 1,
          [setParam (mergeSymbol [] none) "apikey" "GLOBALKEY"], [], 1⟩ := by
      unfold paginate
      rw [if_pos rfl]
      exact hreq
    rw [fmp_call_run_ok (fun _ => AttemptOutcome.ok (Json.arr [Json.str "row"]))
      (fun _ => 0) (fun _ => none) none (fun _ => none) (some "GLOBALKEY") "quote" "stable"
      [] none false "page" 0 1 "GET" 0 "GLOBALKEY" (Json.arr [Json.str "row"]) hres hk
      (by rw [hpag])]
    rw [hpag]
    rfl

/-- C3 (amended): for a caller dispatch with no parameter credential and no
session credential, the process-wide default key, when truthy, IS resolved
and silently substituted as the apikey of every outgoing request (the page
parameter not shadowing the credential slot). -/
theorem c3_amended_fallback_used (net : Nat → AttemptOutcome) (rand : Nat → ℚ)
    (loads : String → Option Json) (sid : Option String) (store : Store) (d : String)
    (endpoint service : String) (params : Params) (symbol : Option String) (pag : Bool)
    (pp : String) (sp : Int) (mp : Nat) (method : String) (tick : Nat)
    (h1 : firstAliasVal (mergeSymbol params symbol) = none)
    (h2 : ∀ s, sid = some s → s ≠ "" → store s = none)
    (hd : d ≠ "") (hpp : pp ≠ "apikey") :
    resolve_user_fmp_key (mergeSymbol params symbol) sid store (some d) = some d ∧
    ∀ p ∈ (fmp_call net rand loads sid store (some d) endpoint service params symbol pag
      pp sp mp method tick).calls, lookupP p "apikey" = some d := by
  have hres := resolve_fallback_of (mergeSymbol params symbol) sid store d h1 h2 hd
  refine ⟨hres, ?_⟩
  have hk : (d == "") = false := by simp [hd]
  have hall := paginate_calls_lookup net rand method (norm_path service endpoint)
    (setParam (mergeSymbol params symbol) "apikey" d) pag pp sp mp tick hpp
  have hself : lookupP (setParam (mergeSymbol params symbol) "apikey" d) "apikey" = some d :=
    lookupP_setParam_self (mergeSymbol params symbol) "apikey" d
  cases hr : (paginate net rand method (norm_path service endpoint)
      (setParam (mergeSymbol params symbol) "apikey" d) pag pp sp mp tick).result with
  | ok v =>
    rw [fmp_call_run_ok net rand loads sid store (some d) endpoint service params symbol
      pag pp sp mp method tick d v hres hk hr]
    intro p hp
    rw [hall p hp, hself]
  | error e =>
    cases e with
    | httpStatusError st body =>
      rw [fmp_call_run_httpError net rand loads sid store (some d) endpoint service params
        symbol pag pp sp mp method tick d st body hres hk hr]
      intro p hp
      rw [hall p hp, hself]
    | otherError msg =>
      rw [fmp_call_run_otherError net rand loads sid store (some d) endpoint service params
        symbol pag pp sp mp method tick d msg hres hk hr]
      intro p hp
      rw [hall p hp, hself]

/-- Witness for the amended C3 at a concrete caller dispatch. -/
theorem c3_amended_fallback_used_witness :
    resolve_user_fmp_key (mergeSymbol [] none) none (fun _ => none) (some "GK") =
      some "GK" ∧
    ∀ p ∈ (fmp_call (fun _ => AttemptOutcome.ok Json.null) (fun _ => 0) (fun _ => none)
      none (fun _ => none) (some "GK") "quote" "stable" [] none false "page" 0 1 "GET"
      0).calls, lookupP p "apikey" = some "GK" :=
  c3_amended_fallback_used (fun _ => AttemptOutcome.ok Json.null) (fun _ => 0)
    (fun _ => none) none (fun _ => none) "GK" "quote" "stable" [] none false "page" 0 1
    "GET" 0 rfl (fun s hs _ => Option.noConfusion hs) (by decide) (by decide)

/-! ### Claim C4: the retry policy of the executor -/

/-- C4 (amended): the executor retries exactly the outcomes it deems
transient - HTTP status in the fixed set (429, 500, 502, 503, 504), a
transport exception, or a 2xx body that fails JSON decoding - up to the
retry budget; an HTTP status outside the set triggers exactly one attempt
and propagates; total attempts are bounded by max_retries + 1; the sleep
before retry k+1 is 2 to the k plus the jitter drawn, lying in
[2 to the k, 2 to the k + 1) when the jitter source yields values in [0,1);
and on failure the propagated exception is that of the last attempt. -/
theorem c4_retry_policy :
    (∀ (net : Nat → AttemptOutcome) (rand : Nat → ℚ) (meth url : String) (params : Params)
      (m tick s : Nat) (b : String),
      apikeyMissing params = false →
      net tick = AttemptOutcome.httpError s b → retryStatus s = false →
      request_json net rand meth url params m tick =
        ⟨Except.error (PyErr.httpStatusError s b), tick + 1, [params], [], 1⟩) ∧
    (∀ (net : Nat → AttemptOutcome) (rand : Nat → ℚ) (qp : Params) (m tick attempt : Nat),
      transientOutcome (net tick) = true → attempt < m →
      requestAttempts net rand qp m tick attempt =
        ⟨(requestAttempts net rand qp m (tick + 1) (attempt + 1)).result,
         (requestAttempts net rand qp m (tick + 1) (attempt + 1)).next,
         qp :: (requestAttempts net rand qp m (tick + 1) (attempt + 1)).calls,
         ((2 : ℚ) ^ attempt + rand tick) ::
           (requestAttempts net rand qp m (tick + 1) (attempt + 1)).sleeps,
         0⟩) ∧
    (∀ (net : Nat → AttemptOutcome) (rand : Nat → ℚ) (qp : Params) (m tick : Nat),
      (requestAttempts net rand qp m tick 0).calls.length ≤ m + 1) ∧
    (∀ (net : Nat → AttemptOutcome) (rand : Nat → ℚ) (qp : Params) (m tick k : Nat),
      k < (requestAttempts net rand qp m tick 0).sleeps.length →
      (requestAttempts net rand qp m tick 0).sleeps[k]? =
        some ((2 : ℚ) ^ k + rand (tick + k)) ∧
      ((∀ t, 0 ≤ rand t ∧ rand t < 1) →
        (2 : ℚ) ^ k ≤ (2 : ℚ) ^ k + rand (tick + k) ∧
        (2 : ℚ) ^ k + rand (tick + k) < (2 : ℚ) ^ k + 1)) ∧
    (∀ (net : Nat → AttemptOutcome) (rand : Nat → ℚ) (qp : Params) (m tick : Nat)
      (e : PyErr),
      (requestAttempts net rand qp m tick 0).result = Except.error e →
      errOfOutcome (net ((requestAttempts net rand qp m tick 0).next - 1)) = some e) := by
  refine ⟨?_, ?_, ?_, ?_, ?_⟩
  · intro net rand meth url params m tick s b hak hnet hs
    rw [request_json_run net rand meth url params m tick hak,
      requestAttempts_stop net rand params m tick 0 (PyErr.httpStatusError s b)
        (by rw [hnet]; rfl) (Or.inl (by rw [hnet]; simpa [transientOutcome] using hs))]
  · intro net rand qp m tick attempt ht ha
    exact requestAttempts_retry net rand qp m tick attempt ht ha
  · intro net rand qp m tick
    obtain ⟨n, _, hbound, hcalls, _⟩ := requestAttempts_spec net rand qp m tick 0
    rw [hcalls, List.length_replicate]
    omega
  · intro net rand qp m tick k hk
    obtain ⟨n, _, _, _, _, hslen, hsleep, _⟩ := requestAttempts_spec net rand qp m tick 0
    have hk2 : k < n - 1 := by rw [hslen] at hk; exact hk
    have := hsleep k hk2
    rw [Nat.zero_add] at this
    refine ⟨this, ?_⟩
    intro hrand
    obtain ⟨hge, hlt⟩ := hrand (tick + k)
    constructor
    · linarith
    · linarith
  · intro net rand qp m tick e herr
    obtain ⟨n, hn1, _, _, hnext, _, _, hlast, _⟩ := requestAttempts_spec net rand qp m tick 0
    rw [hnext]
    exact hlast e herr

/-- Counterexample to C4 as stated: a 501 response (a 5xx status, transient
by the claim) is not retried - exactly one attempt is made where the claim
demands max_retries + 1 = 4 - while a successful-but-malformed response,
never retried by the claim, is retried to exhaustion (4 attempts). -/
theorem c4_counterexample :
    (500 ≤ 501 ∧
      (requestAttempts (fun _ => AttemptOutcome.httpError 501 "oops") (fun _ => 0)
        [("apikey", "K")] 3 0 0).calls.length = 1 ∧
      (requestAttempts (fun _ => AttemptOutcome.httpError 501 "oops") (fun _ => 0)
        [("apikey", "K")] 3 0 0).calls.length ≠ 4) ∧
    (requestAttempts (fun _ => AttemptOutcome.okBadJson "malformed body") (fun _ => 0)
      [("apikey", "K")] 3 0 0).calls.length = 4 := by
  have h1 : requestAttempts (fun _ => AttemptOutcome.httpError 501 "oops") (fun _ => 0)
      [("apikey", "K")] 3 0 0 =
      ⟨Except.error (PyErr.httpStatusError 501 "oops"), 1, [[("apikey", "K")]], [], 0⟩ :=
    requestAttempts_stop (fun _ => AttemptOutcome.httpError 501 "oops") (fun _ => 0)
      [("apikey", "K")] 3 0 0 (PyErr.httpStatusError 501 "oops") rfl (Or.inl rfl)
  refine ⟨⟨by omega, by rw [h1]; rfl, by rw [h1]; simp⟩, ?_⟩
  simp [requestAttempts]

/-- Witness for the amended C4: a 404 failure makes exactly one attempt and
propagates as the HTTP status exception. -/
theorem c4_retry_policy_witness :
    request_json (fun _ => AttemptOutcome.httpError 404 "not found") (fun _ => 0) "GET"
      "/stable/quote" [("apikey", "K")] 3 0 =
      ⟨Except.error (PyErr.httpStatusError 404 "not found"), 1, [[("apikey", "K")]], [], 1⟩ :=
  c4_retry_policy.1 (fun _ => AttemptOutcome.httpError 404 "not found") (fun _ => 0) "GET"
    "/stable/quote" [("apikey", "K")] 3 0 404 "not found" rfl rfl rfl

/-! ### Claim C6: pagination accumulation -/

theorem paginateLoop_zero (net : Nat → AttemptOutcome) (rand : Nat → ℚ)
    (meth url : String) (params : Params) (pp : String) (page : Int)
    (acc : List Json) (tick : Nat) :
    paginateLoop net rand meth url params pp page 0 acc tick =
      ⟨Except.ok (Json.arr acc), tick, [], [], 0⟩ := rfl

/-- C6: with pagination enabled, at most max_pages fetches happen whatever
the upstream does; after a run of non-empty list pages, a falsy page stops
accumulation and the result is the concatenation of the list pages in fetch
order; a truthy non-list page is appended and stops accumulation; and when
the page bound is reached, the result is the concatenation of all fetched
pages. -/
theorem c6_pagination_accumulation :
    (∀ (net : Nat → AttemptOutcome) (rand : Nat → ℚ) (meth url : String) (params : Params)
      (pp : String) (sp : Int) (mp tick : Nat),
      (paginate net rand meth url params true pp sp mp tick).fetches ≤ mp) ∧
    (∀ (net : Nat → AttemptOutcome) (rand : Nat → ℚ) (meth url : String) (params : Params)
      (pp : String) (sp : Int) (mp tick : Nat) (ps : List (List Json)) (c : Json),
      apikeyMissing params = false → pp ≠ "apikey" →
      ps.length < mp →
      (∀ i, (h : i < ps.length) →
        net (tick + i) = AttemptOutcome.ok (Json.arr (ps.get ⟨i, h⟩)) ∧
          ps.get ⟨i, h⟩ ≠ []) →
      net (tick + ps.length) = AttemptOutcome.ok c → truthy c = false →
      (paginate net rand meth url params true pp sp mp tick).result =
        Except.ok (Json.arr ps.join) ∧
      (paginate net rand meth url params true pp sp mp tick).fetches = ps.length + 1) ∧
    (∀ (net : Nat → AttemptOutcome) (rand : Nat → ℚ) (meth url : String) (params : Params)
      (pp : String) (sp : Int) (mp tick : Nat) (ps : List (List Json)) (c : Json),
      apikeyMissing params = false → pp ≠ "apikey" →
      ps.length < mp →
      (∀ i, (h : i < ps.length) →
        net (tick + i) = AttemptOutcome.ok (Json.arr (ps.get ⟨i, h⟩)) ∧
          ps.get ⟨i, h⟩ ≠ []) →
      net (tick + ps.length) = AttemptOutcome.ok c → truthy c = true →
      (∀ xs, c ≠ Json.arr xs) →
      (paginate net rand meth url params true pp sp mp tick).result =
        Except.ok (Json.arr (ps.join ++ [c])) ∧
      (paginate net rand meth url params true pp sp mp tick).fetches = ps.length + 1) ∧
    (∀ (net : Nat → AttemptOutcome) (rand : Nat → ℚ) (meth url : String) (params : Params)
      (pp : String) (sp : Int) (mp tick : Nat) (ps : List (List Json)),
      apikeyMissing params = false → pp ≠ "apikey" →
      ps.length = mp →
      (∀ i, (h : i < ps.length) →
        net (tick + i) = AttemptOutcome.ok (Json.arr (ps.get ⟨i, h⟩)) ∧
          ps.get ⟨i, h⟩ ≠ []) →
      (paginate net rand meth url params true pp sp mp tick).result =
        Except.ok (Json.arr ps.join) ∧
      (paginate net rand meth url params true pp sp mp tick).fetches = mp) := by
  have hpagT : ∀ (net : Nat → AttemptOutcome) (rand : Nat → ℚ) (meth url : String)
      (params : Params) (pp : String) (sp : Int) (mp tick : Nat),
      paginate net rand meth url params true pp sp mp tick =
        paginateLoop net rand meth url params pp sp mp [] tick := by
    intro net rand meth url params pp sp mp tick
    unfold paginate
    rw [if_neg (by simp)]
  refine ⟨?_, ?_, ?_, ?_⟩
  · intro net rand meth url params pp sp mp tick
    rw [hpagT]
    exact paginateLoop_fetches_le net rand meth url params pp mp sp [] tick
  · intro net rand meth url params pp sp mp tick ps c hak hpp hlt hpages hc htc
    rw [hpagT]
    obtain ⟨hres, hfet⟩ := paginateLoop_advance net rand meth url params pp hak hpp ps sp
      mp [] tick (Nat.le_of_lt hlt) hpages
    cases hg : mp - ps.length with
    | zero => omega
    | succ g =>
      rw [hg] at hres hfet
      have hak2 : apikeyMissing (setParam params pp (toString (sp + (ps.length : Int)))) =
          false := by
        rw [apikeyMissing_setParam_ne params pp _ hpp]
        exact hak
      have hreq := request_json_ok net rand meth url
        (setParam params pp (toString (sp + (ps.length : Int)))) 3 (tick + ps.length) c
        hak2 hc
      have hstep := paginateLoop_succ_empty net rand meth url params pp
        (sp + (ps.length : Int)) g ([] ++ ps.join) (tick + ps.length) c (by rw [hreq]) htc
      rw [hstep] at hres hfet
      constructor
      · rw [hres]
        simp
      · rw [hfet, hreq]
  · intro net rand meth url params pp sp mp tick ps c hak hpp hlt hpages hc htc hnl
    rw [hpagT]
    obtain ⟨hres, hfet⟩ := paginateLoop_advance net rand meth url params pp hak hpp ps sp
      mp [] tick (Nat.le_of_lt hlt) hpages
    cases hg : mp - ps.length with
    | zero => omega
    | succ g =>
      rw [hg] at hres hfet
      have hak2 : apikeyMissing (setParam params pp (toString (sp + (ps.length : Int)))) =
          false := by
        rw [apikeyMissing_setParam_ne params pp _ hpp]
        exact hak
      have hreq := request_json_ok net rand meth url
        (setParam params pp (toString (sp + (ps.length : Int)))) 3 (tick + ps.length) c
        hak2 hc
      have hstep := paginateLoop_succ_scalar net rand meth url params pp
        (sp + (ps.length : Int)) g ([] ++ ps.join) (tick + ps.length) c (by rw [hreq]) htc hnl
      rw [hstep] at hres hfet
      constructor
      · rw [hres]
        simp
      · rw [hfet, hreq]
  · intro net rand meth url params pp sp mp tick ps hak hpp hlen hpages
    rw [hpagT]
    obtain ⟨hres, hfet⟩ := paginateLoop_advance net rand meth url params pp hak hpp ps sp
      mp [] tick (Nat.le_of_eq hlen) hpages
    have hg : mp - ps.length = 0 := by omega
    rw [hg, paginateLoop_zero] at hres hfet
    constructor
    · rw [hres]
      simp
    · rw [hfet]
      simp [hlen]

/-- Witness for C6: three one-element list pages followed by an empty page,
with a bound of 10, accumulate to the three elements in order in four
fetches. -/
theorem c6_pagination_accumulation_witness :
    (paginate (fun t => if t == 0 then AttemptOutcome.ok (Json.arr [Json.str "a"])
        else if t == 1 then AttemptOutcome.ok (Json.arr [Json.str "b"])
        else if t == 2 then AttemptOutcome.ok (Json.arr [Json.str "c"])
        else AttemptOutcome.ok (Json.arr [])) (fun _ => 0) "GET" "/stable/x"
      [("apikey", "K")] true "page" 0 10 0).result =
      Except.ok (Json.arr (([[Json.str "a"], [Json.str "b"], [Json.str "c"]] :
        List (List Json)).join)) ∧
    (paginate (fun t => if t == 0 then AttemptOutcome.ok (Json.arr [Json.str "a"])
        else if t == 1 then AttemptOutcome.ok (Json.arr [Json.str "b"])
        else if t == 2 then AttemptOutcome.ok (Json.arr [Json.str "c"])
        else AttemptOutcome.ok (Json.arr [])) (fun _ => 0) "GET" "/stable/x"
      [("apikey", "K")] true "page" 0 10 0).fetches =
      ([[Json.str "a"], [Json.str "b"], [Json.str "c"]] : List (List Json)).length + 1 :=
  c6_pagination_accumulation.2.1 (fun t => if t == 0 then AttemptOutcome.ok (Json.arr [Json.str "a"])
        else if t == 1 then AttemptOutcome.ok (Json.arr [Json.str "b"])
        else if t == 2 then AttemptOutcome.ok (Json.arr [Json.str "c"])
        else AttemptOutcome.ok (Json.arr [])) (fun _ => 0) "GET" "/stable/x"
    [("apikey", "K")] "page" 0 10 0 [[Json.str "a"], [Json.str "b"], [Json.str "c"]]
    (Json.arr []) rfl (by decide) (by decide)
    (by intro i h
        simp only [List.length_cons, List.length_nil] at h
        interval_cases i <;> exact ⟨rfl, by simp⟩)
    rfl rfl

/-! ### Claim C7: pagination is all-or-nothing -/

/-- C7: when a paginated dispatch fails on some page after the executor
retries, the caller receives the classified error for that failure; the
result value is built only from the failure (and the call identity), so the
pages already accumulated are discarded, never returned as a success. -/
theorem c7_pagination_all_or_nothing (net : Nat → AttemptOutcome) (rand : Nat → ℚ)
    (loads : String → Option Json) (sid : Option String) (store : Store)
    (defaultKey : Option String) (endpoint service : String) (params : Params)
    (symbol : Option String) (pp : String) (sp : Int) (mp : Nat) (method : String)
    (tick : Nat) (key : String) (e : PyErr)
    (hres : resolve_user_fmp_key (mergeSymbol params symbol) sid store defaultKey = some key)
    (hk : key ≠ "")
    (herr : (paginate net rand method (norm_path service endpoint)
      (setParam (mergeSymbol params symbol) "apikey" key) true pp sp mp tick).result =
        Except.error e) :
    (fmp_call net rand loads sid store defaultKey endpoint service params symbol true pp
      sp mp method tick).result =
      Except.ok (Json.obj [("_error",
        match e with
        | PyErr.httpStatusError st body => classify_fmp_http_error service endpoint st body
        | PyErr.otherError msg => error_payload_from_exception loads msg)]) := by
  have hk2 : (key == "") = false := by simp [hk]
  cases e with
  | httpStatusError st body =>
    rw [fmp_call_run_httpError net rand loads sid store defaultKey endpoint service params
      symbol true pp sp mp method tick key st body hres hk2 herr]
  | otherError msg =>
    rw [fmp_call_run_otherError net rand loads sid store defaultKey endpoint service params
      symbol true pp sp mp method tick key msg hres hk2 herr]

/-- Witness for C7: page 1 returns a row, page 2 fails with 404 under a
3-page budget; the overall result is the classified 404 error, not the
page-1 data. -/
theorem c7_pagination_all_or_nothing_witness :
    (fmp_call (fun t => if t == 0 then AttemptOutcome.ok (Json.arr [Json.str "row1"])
        else AttemptOutcome.httpError 404 "nope") (fun _ => 0) (fun _ => none) none
      (fun _ => none) (some "K") "quote" "stable" [] none true "page" 0 3 "GET" 0).result =
      Except.ok (Json.obj [("_error",
        classify_fmp_http_error "stable" "quote" 404 "nope")]) := by
  have herr : (paginate (fun t => if t == 0 then AttemptOutcome.ok (Json.arr [Json.str "row1"])
      else AttemptOutcome.httpError 404 "nope") (fun _ => 0) "GET"
      (norm_path "stable" "quote") (setParam (mergeSymbol [] none) "apikey" "K") true
      "page" 0 3 0).result = Except.error (PyErr.httpStatusError 404 "nope") := by
    simp [paginate, paginateLoop, request_json, requestAttempts, apikeyMissing, lookupP,
      setParam, mergeSymbol, truthy, retryStatus]
  exact c7_pagination_all_or_nothing
    (fun t => if t == 0 then AttemptOutcome.ok (Json.arr [Json.str "row1"])
      else AttemptOutcome.httpError 404 "nope") (fun _ => 0) (fun _ => none) none
    (fun _ => none) (some "K") "quote" "stable" [] none "page" 0 3 "GET" 0 "K"
    (PyErr.httpStatusError 404 "nope") rfl (by decide) herr

end FMP
